import Mathlib

/-!
Verification development for the PasswordManager repository.

Shallow embedding of the Python sources into Lean 4:
* bytes are modelled as `List Nat` (each entry a byte value);
* external library primitives (AES block transforms from pycrypto,
  PBKDF2 from hashlib, DEFLATE from zlib, JSON from the json module,
  `random.shuffle`, `os.urandom`) are parameters of the embedded
  functions, so every theorem quantifies over their behaviour and
  states its hypotheses about them pointwise;
* Python exceptions are modelled with `Option`/`Except`;
* timestamps are modelled as integers counting seconds: the
  serialization format "%Y-%m-%dT%H:%M:%S" is second-precision, so a
  `datetime` and its serialized form are identified with an `Int`,
  and an argument that fails `datetime.strptime` is modelled as `none`.
-/

/-- Bytes (`bytes` in Python) are lists of byte values. -/
abbrev Bytes := List Nat

namespace Crypter

/-- Embeds `Crypter.add_pkcs7_padding` (crypter.py lines 75-88):
`length = 16 - (len(data) % 16); data += bytes([length]) * length`. -/
def add_pkcs7_padding (data : Bytes) : Bytes :=
  data ++ List.replicate (16 - data.length % 16) (16 - data.length % 16)

/-- Embeds `Crypter.remove_pkcs7_padding` (crypter.py lines 115-125):
`return data[:-data[-1]]`.  On empty input Python raises `IndexError`
(modelled as `none`); note the Python quirk that `data[:-0]` is the empty
slice when the final byte is `0`. -/
def remove_pkcs7_padding (data : Bytes) : Option Bytes :=
  match data.getLast? with
  | none => none
  | some n => some (if n = 0 then [] else data.take (data.length - n))

/-- Embeds `Crypter.encrypt` (crypter.py lines 90-100): AES-CBC of the padded
data.  The AES-CBC block transform under the crypter's key and IV is the
external parameter `aesE`. -/
def encrypt (aesE : Bytes → Bytes) (data : Bytes) : Bytes :=
  aesE (add_pkcs7_padding data)

/-- Embeds `Crypter.decrypt` (crypter.py lines 127-137): strip PKCS7 from the
AES-CBC decryption of the ciphertext.  `aesD` is the external AES-CBC
decryption transform under the crypter's key and IV. -/
def decrypt (aesD : Bytes → Bytes) (encrypted_data : Bytes) : Option Bytes :=
  remove_pkcs7_padding (aesD encrypted_data)

/-- Embeds `Crypter.encrypt_unpadded` (crypter.py lines 102-113): AES-CBC of the
raw data (the caller guarantees a multiple of 16 bytes). -/
def encrypt_unpadded (aesE : Bytes → Bytes) (data : Bytes) : Bytes :=
  aesE data

/-- Embeds `Crypter.decrypt_unpadded` (crypter.py lines 139-150). -/
def decrypt_unpadded (aesD : Bytes → Bytes) (encrypted_data : Bytes) : Bytes :=
  aesD encrypted_data

end Crypter

namespace Packer

/-- Big-endian 4-byte encoding, `struct.pack("!I", n)` (requires
`n < 2^32` in Python, which raises `struct.error` otherwise; the claims
only use it below that bound). -/
def pack_be32 (n : Nat) : Bytes :=
  [n / 2 ^ 24 % 256, n / 2 ^ 16 % 256, n / 2 ^ 8 % 256, n % 256]

/-- Big-endian 4-byte decoding, `struct.unpack("!I", b)[0]`. -/
def unpack_be32 (b : Bytes) : Nat :=
  b.foldl (fun acc x => acc * 256 + x) 0

/-- Embeds `Packer.compress` (packer.py lines 17-45) on `bytes` input: a 4-byte
big-endian length of the uncompressed data followed by the DEFLATE
stream.  `deflate` is zlib's compression, an external parameter.  (For
`str` input the source UTF-8-encodes first; callers in this development
pass the encoded bytes.) -/
def compress (deflate : Bytes → Bytes) (data : Bytes) : Bytes :=
  pack_be32 data.length ++ deflate data

/-- Embeds `Packer.decompress` (packer.py lines 47-64):
`zlib.decompress(compressed_data[4:])`, with `zlib.error` re-raised as
`ValueError` (modelled as `none`).  `inflate` is zlib's decompression,
an external parameter returning `none` on `zlib.error`. -/
def decompress (inflate : Bytes → Option Bytes) (compressed_data : Bytes) :
    Option Bytes :=
  inflate (compressed_data.drop 4)

end Packer

/-! ## The record data model (`setting.py`) -/

/-- Embeds `string.ascii_lowercase` (setting.py line 16). -/
def DEFAULT_LOWER_CASE_CHARACTERS : List Char :=
  "abcdefghijklmnopqrstuvwxyz".toList

/-- Embeds `string.ascii_uppercase` (setting.py line 17). -/
def DEFAULT_UPPER_CASE_CHARACTERS : List Char :=
  "ABCDEFGHIJKLMNOPQRSTUVWXYZ".toList

/-- Embeds `string.digits` (setting.py line 18). -/
def DEFAULT_DIGITS : List Char := "0123456789".toList

/-- The default extra character set (setting.py line 19). -/
def DEFAULT_EXTRA_CHARACTERS : List Char :=
  "#!\"§$%&/()[]\x7b\x7d=-_+*<>;:.".toList

/-- The in-memory state of a `Setting` object (setting.py lines 22-36).
Timestamps are integers counting seconds (the serialization format is
second-precision); optional string fields are `Option String` with
`none` for Python `None`. -/
structure Setting where
  domain : String
  username : Option String
  fixed_password : Option String
  url : Option String
  notes : Option String
  length : Int
  iterations : Int
  salt : Bytes
  creation_date : Int
  modification_date : Int
  extra_characters : List Char
  template : List Char
deriving DecidableEq, Repr

namespace Setting

/-- Embeds `Setting.get_username` (setting.py lines 103-113): the username, or
`""` when it is unset (Python also returns `""` for a stored empty
string, which is falsy). -/
def get_username (s : Setting) : String := s.username.getD ""

/-- Embeds `Setting.get_fixed_password` (setting.py lines 163-173). -/
def get_fixed_password (s : Setting) : String := s.fixed_password.getD ""

/-- Embeds `Setting.get_url` (setting.py lines 452-462). -/
def get_url (s : Setting) : String := s.url.getD ""

/-- Embeds `Setting.get_notes` (setting.py lines 402-412). -/
def get_notes (s : Setting) : String := s.notes.getD ""

/-- Embeds `Setting.set_username` (setting.py lines 115-122). -/
def set_username (username : String) (s : Setting) : Setting :=
  { s with username := some username }

/-- Embeds `Setting.set_fixed_password` (setting.py lines 175-182). -/
def set_fixed_password (fixed_password : String) (s : Setting) : Setting :=
  { s with fixed_password := some fixed_password }

/-- Embeds `Setting.set_url` (setting.py lines 464-471). -/
def set_url (url : String) (s : Setting) : Setting :=
  { s with url := some url }

/-- Embeds `Setting.set_notes` (setting.py lines 414-421). -/
def set_notes (notes : String) (s : Setting) : Setting :=
  { s with notes := some notes }

/-- Embeds `Setting.set_extra_character_set` (setting.py lines 252-262): `None`
or an empty set selects the default extra characters. -/
def set_extra_character_set (extra_set : Option (List Char)) (s : Setting) :
    Setting :=
  match extra_set with
  | none => { s with extra_characters := DEFAULT_EXTRA_CHARACTERS }
  | some e =>
    if e.length ≤ 0 then { s with extra_characters := DEFAULT_EXTRA_CHARACTERS }
    else { s with extra_characters := e }

/-- Embeds `Setting.set_salt` (setting.py lines 273-287) on a `bytes` argument
(the `str` branch UTF-8-encodes first; callers here pass bytes). -/
def set_salt (salt : Bytes) (s : Setting) : Setting := { s with salt := salt }

/-- Embeds `Setting.set_iterations` (setting.py lines 323-330): stores the
value with no validation. -/
def set_iterations (iterations : Int) (s : Setting) : Setting :=
  { s with iterations := iterations }

/-- Embeds `Setting.set_creation_date` (setting.py lines 350-363).  The
argument is the `strptime` result of the passed string: `none` when the
string does not parse (the date is kept and a message printed).  After
the assignment, a modification date older than the creation date is
promoted to it. -/
def set_creation_date (creation_date : Option Int) (s : Setting) : Setting :=
  let s' := match creation_date with
            | some c => { s with creation_date := c }
            | none => s
  if s'.modification_date < s'.creation_date then
    { s' with modification_date := s'.creation_date }
  else s'

/-- Embeds `Setting.set_modification_date` (setting.py lines 383-400).
`none` models a non-string argument (the date is set to `now`,
`datetime.now()`); `some none` a string that fails `strptime` (the date
is kept); `some (some m)` a string parsing to `m`.  After the
assignment, a creation date newer than the modification date is lowered
to it. -/
def set_modification_date (now : Int) (modification_date : Option (Option Int))
    (s : Setting) : Setting :=
  let s' := match modification_date with
            | some (some m) => { s with modification_date := m }
            | some none => s
            | none => { s with modification_date := now }
  if s'.modification_date < s'.creation_date then
    { s' with creation_date := s'.modification_date }
  else s'

/-- The list built by the loop of `Setting.calculate_template`
(setting.py lines 528-547): one marker for each enabled class, in the
order lower, upper, digits, extra, the remaining positions filled with
`x`.  The four trailing booleans are the `inserted_*` flags. -/
def build_template_list (use_lower_case use_upper_case use_digits use_extra :
    Bool) : Nat → Bool → Bool → Bool → Bool → List Char
  | 0, _, _, _, _ => []
  | n + 1, il, iu, idg, ie =>
    if use_lower_case && !il then
      'a' :: build_template_list use_lower_case use_upper_case use_digits
        use_extra n true iu idg ie
    else if use_upper_case && !iu then
      'A' :: build_template_list use_lower_case use_upper_case use_digits
        use_extra n il true idg ie
    else if use_digits && !idg then
      'n' :: build_template_list use_lower_case use_upper_case use_digits
        use_extra n il iu true ie
    else if use_extra && !ie then
      'o' :: build_template_list use_lower_case use_upper_case use_digits
        use_extra n il iu idg true
    else
      'x' :: build_template_list use_lower_case use_upper_case use_digits
        use_extra n il iu idg ie

/-- Embeds `Setting.calculate_template` (setting.py lines 501-549).  A `none`
argument reads the corresponding enable bit from the current template;
the assembled marker list is shuffled by `random.shuffle`, modelled by
the external permutation parameter `shuffle`. -/
def calculate_template (shuffle : List Char → List Char)
    (use_lower_case use_upper_case use_digits use_extra : Option Bool)
    (s : Setting) : Setting :=
  let ul := use_lower_case.getD ('a' ∈ s.template)
  let uu := use_upper_case.getD ('A' ∈ s.template)
  let ud := use_digits.getD ('n' ∈ s.template)
  let ue := use_extra.getD ('o' ∈ s.template)
  { s with template :=
      shuffle (build_template_list ul uu ud ue s.length.toNat
        false false false false) }

/-- Embeds `Setting.set_complexity` (setting.py lines 560-593).  Note that for
an out-of-range value the source builds a `ValueError` without raising
it (line 577 lacks `raise`), so nothing happens. -/
def set_complexity (shuffle : List Char → List Char) (complexity : Int)
    (s : Setting) : Setting :=
  if complexity = 1 then
    s.calculate_template shuffle (some false) (some false) (some true)
      (some false)
  else if complexity = 2 then
    s.calculate_template shuffle (some true) (some false) (some false)
      (some false)
  else if complexity = 3 then
    s.calculate_template shuffle (some false) (some true) (some false)
      (some false)
  else if complexity = 4 then
    s.calculate_template shuffle (some true) (some false) (some true)
      (some false)
  else if complexity = 5 then
    s.calculate_template shuffle (some false) (some true) (some true)
      (some false)
  else if complexity = 6 then
    s.calculate_template shuffle (some true) (some true) (some true)
      (some false)
  else if complexity = 7 then
    s.calculate_template shuffle (some true) (some true) (some true)
      (some true)
  else if complexity = 8 then
    s.calculate_template shuffle (some false) (some false) (some false)
      (some true)
  else s

/-- Embeds `Setting.get_complexity` (setting.py lines 595-628): maps the set of
markers present in the template to a digit from 1 to 8, and any other
combination to -1. -/
def get_complexity (s : Setting) : Int :=
  if 'n' ∈ s.template ∧ 'a' ∉ s.template ∧ 'A' ∉ s.template ∧
      'o' ∉ s.template then 1
  else if 'n' ∉ s.template ∧ 'a' ∈ s.template ∧ 'A' ∉ s.template ∧
      'o' ∉ s.template then 2
  else if 'n' ∉ s.template ∧ 'a' ∉ s.template ∧ 'A' ∈ s.template ∧
      'o' ∉ s.template then 3
  else if 'n' ∈ s.template ∧ 'a' ∈ s.template ∧ 'A' ∉ s.template ∧
      'o' ∉ s.template then 4
  else if 'n' ∉ s.template ∧ 'a' ∈ s.template ∧ 'A' ∈ s.template ∧
      'o' ∉ s.template then 5
  else if 'n' ∈ s.template ∧ 'a' ∈ s.template ∧ 'A' ∈ s.template ∧
      'o' ∉ s.template then 6
  else if 'n' ∈ s.template ∧ 'a' ∈ s.template ∧ 'A' ∈ s.template ∧
      'o' ∈ s.template then 7
  else if 'n' ∉ s.template ∧ 'a' ∉ s.template ∧ 'A' ∉ s.template ∧
      'o' ∈ s.template then 8
  else -1

/-- Embeds `Setting.set_length` (setting.py lines 304-312): stores the length,
then recomputes the template at the current complexity. -/
def set_length (shuffle : List Char → List Char) (length : Int) (s : Setting) :
    Setting :=
  let s' := { s with length := length }
  s'.set_complexity shuffle s'.get_complexity

/-- Embeds `Setting.get_character_set` (setting.py lines 225-241): the union of
the classes whose markers occur in the template, assembled in the order
digits, lower case, upper case, extra. -/
def get_character_set (s : Setting) : List Char :=
  (if 'n' ∈ s.template then DEFAULT_DIGITS else []) ++
  (if 'a' ∈ s.template then DEFAULT_LOWER_CASE_CHARACTERS else []) ++
  (if 'A' ∈ s.template then DEFAULT_UPPER_CASE_CHARACTERS else []) ++
  (if 'o' ∈ s.template then s.extra_characters else [])

/-- The `Setting.__init__` constructor (setting.py lines 23-36).  The
random salt from `Crypter.create_salt()`, the construction time
`datetime.now()`, and the `random.shuffle` permutation are the
parameters `salt`, `now`, `shuffle`. -/
def init (domain : String) (salt : Bytes) (now : Int)
    (shuffle : List Char → List Char) : Setting :=
  let s : Setting :=
    { domain := domain, username := none, fixed_password := none,
      url := none, notes := none, length := 16, iterations := 4096,
      salt := salt, creation_date := now, modification_date := now,
      extra_characters := DEFAULT_EXTRA_CHARACTERS,
      template := List.replicate 16 'x' }
  s.calculate_template shuffle (some true) (some true) (some true) (some true)

end Setting

/-! ## Serialized record dictionaries and (de)serialization -/

/-- A parsed JSON record object, as produced by `Setting.to_dict` and
consumed by `Setting.load_from_dict` and the merge of
`SettingsManager.load_settings`.  Each field is `none` when its key is
absent from the dictionary.  The salt is held as the decoded bytes (the
base64 encode/decode pair of the source round-trips and is modelled as
the identity); a date value is `some none` when the key is present but
its string fails `strptime`, `some (some t)` when it parses to `t`.
`mDate` is the key read by the merge of `load_settings`. -/
structure DataSet where
  domain_name : Option String
  username : Option String
  fixed_password : Option String
  length : Option Int
  extra_character_set : Option (List Char)
  iterations : Option Int
  salt : Option Bytes
  template : Option (List Char)
  url : Option String
  notes : Option String
  creation_date : Option (Option Int)
  modification_date : Option (Option Int)
  mDate : Option (Option Int)
deriving DecidableEq, Repr

namespace Setting

/-- Embeds `Setting.to_dict` (setting.py lines 630-654): the dictionary with
the record's fields; `username`, `fixed_password`, `URL` and `notes` are
written only when truthy. -/
def to_dict (s : Setting) : DataSet :=
  { domain_name := some s.domain
    username := if s.get_username ≠ "" then some s.get_username else none
    fixed_password :=
      if s.get_fixed_password ≠ "" then some s.get_fixed_password else none
    length := some s.length
    extra_character_set := some s.extra_characters
    iterations := some s.iterations
    salt := some s.salt
    template := some s.template
    url := if s.get_url ≠ "" then some s.get_url else none
    notes := if s.notes.getD "" ≠ "" then some s.get_notes else none
    creation_date := some (some s.creation_date)
    modification_date := some (some s.modification_date)
    mDate := none }

/-- One `if key in loaded_setting: setter(loaded_setting[key])`
statement of `Setting.load_from_dict`: apply the setter when the key is
present, otherwise leave the setting unchanged. -/
def load_key {α : Type} (v : Option α) (setter : α → Setting → Setting)
    (s : Setting) : Setting :=
  match v with
  | some a => setter a s
  | none => s

/-- Embeds `Setting.load_from_dict` (setting.py lines 656-684): each present
key is loaded through its setter, in source order (username,
fixed_password, length, extra_character_set, iterations, salt, template,
URL, notes, creation_date, modification_date).  `shuffle` feeds the
template recalculation of `set_length`; `now` feeds
`set_modification_date` (unused here because the dictionary holds
strings). -/
def load_from_dict (shuffle : List Char → List Char) (now : Int)
    (loaded_setting : DataSet) (s : Setting) : Setting :=
  load_key loaded_setting.modification_date
    (fun m => set_modification_date now (some m))
    (load_key loaded_setting.creation_date set_creation_date
      (load_key loaded_setting.notes set_notes
        (load_key loaded_setting.url set_url
          (load_key loaded_setting.template (fun t s => { s with template := t })
            (load_key loaded_setting.salt set_salt
              (load_key loaded_setting.iterations set_iterations
                (load_key loaded_setting.extra_character_set
                  (fun e => set_extra_character_set (some e))
                  (load_key loaded_setting.length (set_length shuffle)
                    (load_key loaded_setting.fixed_password set_fixed_password
                      (load_key loaded_setting.username set_username s))))))))))

end Setting

/-! ## The deterministic password generator (`password_generator.py`) -/

namespace PasswordGenerator

/-- Embeds `int.from_bytes(h, byteorder="big")`. -/
def bytes_to_nat (b : Bytes) : Nat :=
  b.foldl (fun acc x => acc * 256 + x) 0

/-- Embeds `PasswordGenerator.__init__` (password_generator.py lines 24-35):
the 64-byte PBKDF2-HMAC-SHA512 digest of the UTF-8 bytes of the domain
followed by the raw KGK bytes, under the salt, with the iteration count
(4096 substituted for values below 1).  `pbkdf2_sha512 data salt iters`
is `hashlib.pbkdf2_hmac("sha512", data, salt, iters)`, an external
parameter; `domain` stands for the UTF-8 bytes of the domain string. -/
def hash_value (pbkdf2_sha512 : Bytes → Bytes → Int → Bytes)
    (domain key_generation_key salt : Bytes) (iterations : Int) : Bytes :=
  pbkdf2_sha512 (domain ++ key_generation_key) salt
    (if iterations < 1 then 4096 else iterations)

/-- The loop of `PasswordGenerator.generate` (password_generator.py
lines 54-68), recursing over the template with the running integer. -/
def generate_loop (lower_set upper_set digits_set extra_set character_set :
    List Char) : List Char → Nat → List Char
  | [], _ => []
  | value :: rest, number =>
    if number > 0 then
      let current_set :=
        if value = 'a' then lower_set
        else if value = 'A' then upper_set
        else if value = 'n' then digits_set
        else if value = 'o' then extra_set
        else character_set
      if current_set.length > 0 then
        current_set.getD (number % current_set.length) 'x' ::
          generate_loop lower_set upper_set digits_set extra_set character_set
            rest (number / current_set.length)
      else
        generate_loop lower_set upper_set digits_set extra_set character_set
          rest number
    else
      generate_loop lower_set upper_set digits_set extra_set character_set
        rest number

/-- Embeds `PasswordGenerator.generate` (password_generator.py lines 37-69). -/
def generate (hash_value : Bytes) (setting : Setting) : List Char :=
  generate_loop DEFAULT_LOWER_CASE_CHARACTERS DEFAULT_UPPER_CASE_CHARACTERS
    DEFAULT_DIGITS setting.extra_characters setting.get_character_set
    setting.template (bytes_to_nat hash_value)

end PasswordGenerator

/-! ## The key generation key manager (`key_generation_key_manager.py`) -/

/-- The state of a `KeyGenerationKeyManager` (lines 18-24 of
key_generation_key_manager.py).  The wrapping crypter
(`key_generation_key_crypter`) is external key material and appears as
the AES parameters of the operations that use it. -/
structure KgkState where
  key_generation_key : Bytes
  initialization_vector2 : Option Bytes
  salt2 : Option Bytes
  salt : Bytes
deriving DecidableEq, Repr

namespace KgkState

/-- Embeds `KeyGenerationKeyManager.decrypt_key_generation_key`
(key_generation_key_manager.py lines 106-138), for an already
established wrapping crypter whose AES-CBC decryption transform is
`aesD` (the crypter-selection prelude, lines 124-129, only chooses that
key material).  A 112-byte block is decrypted without padding and sliced
into salt 2, initialization vector 2, and the KGK; any other length
makes `create_new_key_generation_key` (lines 94-104) draw the fresh
random values `fresh_kgk`, `fresh_iv2`, `fresh_salt2`. -/
def decrypt_key_generation_key (aesD : Bytes → Bytes)
    (fresh_kgk fresh_iv2 fresh_salt2 : Bytes)
    (encrypted_key_generation_key : Bytes) (st : KgkState) : KgkState :=
  if encrypted_key_generation_key.length = 112 then
    let key_generation_key_block :=
      Crypter.decrypt_unpadded aesD encrypted_key_generation_key
    { st with
      salt2 := some (key_generation_key_block.take 32)
      initialization_vector2 :=
        some ((key_generation_key_block.drop 32).take 16)
      key_generation_key := (key_generation_key_block.drop 48).take 64 }
  else
    { st with
      key_generation_key := fresh_kgk
      initialization_vector2 := some fresh_iv2
      salt2 := some fresh_salt2 }

/-- Embeds `KeyGenerationKeyManager.get_encrypted_key_generation_key_block`
(key_generation_key_manager.py lines 191-199): the unpadded AES-CBC
encryption of `salt2 + initialization_vector2 + key_generation_key`
under the wrapping crypter `aesE`.  A missing salt 2 or initialization
vector 2 is a Python `TypeError` from concatenating `None` (`none`). -/
def get_encrypted_key_generation_key_block (aesE : Bytes → Bytes)
    (st : KgkState) : Option Bytes :=
  match st.salt2, st.initialization_vector2 with
  | some s2, some iv2 =>
    some (Crypter.encrypt_unpadded aesE (s2 ++ iv2 ++ st.key_generation_key))
  | _, _ => none

/-- Embeds `KeyGenerationKeyManager.new_salt2` (lines 178-182); the fresh
random salt is the parameter. -/
def new_salt2 (fresh_salt2 : Bytes) (st : KgkState) : KgkState :=
  { st with salt2 := some fresh_salt2 }

/-- Embeds `KeyGenerationKeyManager.new_initialization_vector2`
(lines 184-189). -/
def new_initialization_vector2 (fresh_iv2 : Bytes) (st : KgkState) :
    KgkState :=
  { st with initialization_vector2 := some fresh_iv2 }

end KgkState

/-! ## The settings manager (`settings_manager.py`) -/

/-- The errors `SettingsManager.load_settings` can raise.
`permissionError` is the `PermissionError("Wrong master password...")`
of lines 52-54; `valueError` the `ValueError` of lines 58-60 (and a
`strptime` failure in the merge, line 69); `keyError` a missing
`"mDate"` key (line 69); `jsonError` a `json.loads` / UTF-8 decode
failure (lines 56-57); `indexError` the `IndexError` of
`remove_pkcs7_padding` on an empty decryption; `typeError` a settings
crypter built while salt 2 or initialization vector 2 is `None`. -/
inductive LoadErr where
  | permissionError
  | valueError
  | keyError
  | jsonError
  | indexError
  | typeError
deriving DecidableEq, Repr

instance {e a : Type} [DecidableEq e] [DecidableEq a] :
    DecidableEq (Except e a) := fun x y =>
  match x, y with
  | .error u, .error v =>
    if h : u = v then isTrue (by rw [h])
    else isFalse (fun hh => h (Except.error.inj hh))
  | .ok u, .ok v =>
    if h : u = v then isTrue (by rw [h])
    else isFalse (fun hh => h (Except.ok.inj hh))
  | .error _, .ok _ => isFalse Except.noConfusion
  | .ok _, .error _ => isFalse Except.noConfusion

namespace SettingsManager

/-- One Python dict assignment `settings_dict[k] = v`: replace the value
at an existing key in place, else append. -/
def dict_insert (d : List (String × DataSet)) (k : String) (v : DataSet) :
    List (String × DataSet) :=
  if d.any (fun p => p.1 = k) then d.map (fun p => if p.1 = k then (k, v) else p)
  else d ++ [(k, v)]

/-- Embeds `SettingsManager.get_settings_as_dict` (settings_manager.py lines
148-158): the insertion-ordered dictionary `{domain: to_dict()}`. -/
def get_settings_as_dict (settings : List Setting) :
    List (String × DataSet) :=
  settings.foldl (fun settings_dict s => dict_insert settings_dict s.domain
    s.to_dict) []

/-- The key and IV material of `SettingsManager.get_settings_crypter`
(settings_manager.py lines 22-35): `Crypter.create_key(kgk, salt2)`
(PBKDF2-HMAC-SHA256 at its default 1024 iterations, the external
parameter `pbkdf2_sha256`) concatenated with IV 2.  `none` models the
`TypeError` Python raises when salt 2 or the IV is still `None`. -/
def get_settings_crypter_key (pbkdf2_sha256 : Bytes → Bytes → Bytes)
    (st : KgkState) : Option Bytes :=
  match st.salt2, st.initialization_vector2 with
  | some s2, some iv2 => some (pbkdf2_sha256 st.key_generation_key s2 ++ iv2)
  | _, _ => none

/-- Embeds `SettingsManager.store_settings` (settings_manager.py lines 78-92):
refresh salt 2 and IV 2, build the settings crypter, and encrypt the
4-byte big-endian record count followed by the compressed JSON dump of
the settings dictionary.  `aesEncK key48` is the AES-CBC encryption
under key material `key48`; `print_json` is `json.dumps` followed by
UTF-8 encoding.  Returns the encrypted blob handed to
`store_settings_data` together with the refreshed manager state (the
final `store_key_generation_key_block_salt` of line 92 re-wraps the KGK
block, modelled by `KgkState.get_encrypted_key_generation_key_block`). -/
def store_settings (pbkdf2_sha256 : Bytes → Bytes → Bytes)
    (aesEncK : Bytes → Bytes → Bytes) (deflate : Bytes → Bytes)
    (print_json : List (String × DataSet) → Bytes)
    (fresh_salt2 fresh_iv2 : Bytes) (settings : List Setting)
    (st : KgkState) : Option (Bytes × KgkState) :=
  let st' := (st.new_salt2 fresh_salt2).new_initialization_vector2 fresh_iv2
  match get_settings_crypter_key pbkdf2_sha256 st' with
  | none => none
  | some key48 =>
    some (Crypter.encrypt (aesEncK key48)
      (Packer.pack_be32 (get_settings_as_dict settings).length ++
        Packer.compress deflate (print_json (get_settings_as_dict settings))),
      st')

/-- The inner `while` loop of the merge in
`SettingsManager.load_settings` (settings_manager.py lines 63-72): walk
the in-memory settings; each one whose domain matches has the incoming
`"mDate"` compared with its modification date and is overwritten from
the dict when the incoming date is strictly newer.  Returns the updated
list together with the `found` flag.  A missing `"mDate"` key is a
`KeyError`, an unparseable one a `ValueError` from `strptime`. -/
def merge_scan (shuffle : List Char → List Char) (now : Int)
    (domain_name : String) (data_set : DataSet) :
    List Setting → Except LoadErr (List Setting × Bool)
  | [] => .ok ([], false)
  | setting :: rest =>
    if setting.domain = domain_name then
      match data_set.mDate with
      | none => .error .keyError
      | some none => .error .valueError
      | some (some m_date) =>
        let setting' := if setting.modification_date < m_date then
            setting.load_from_dict shuffle now data_set
          else setting
        match merge_scan shuffle now domain_name data_set rest with
        | .error e => .error e
        | .ok (rest', _) => .ok (setting' :: rest', true)
    else
      match merge_scan shuffle now domain_name data_set rest with
      | .error e => .error e
      | .ok (rest', found) => .ok (setting :: rest', found)

/-- One iteration of the outer merge loop of
`SettingsManager.load_settings` (lines 61-76): scan the in-memory
settings for the domain; when it is not found, append a new
`Setting(domain_name)` loaded from the dict.  The fresh salt and
construction time of the appended `Setting` are `fresh_salt`, `now`. -/
def merge_domain (shuffle : List Char → List Char) (now : Int)
    (fresh_salt : Bytes) (domain_name : String) (data_set : DataSet)
    (settings : List Setting) : Except LoadErr (List Setting) :=
  match merge_scan shuffle now domain_name data_set settings with
  | .error e => .error e
  | .ok (settings', found) =>
    if found then .ok settings'
    else .ok (settings' ++
      [(Setting.init domain_name fresh_salt now shuffle).load_from_dict
        shuffle now data_set])

/-- The outer merge loop of `SettingsManager.load_settings` over the
parsed JSON object in key order. -/
def merge_all (shuffle : List Char → List Char) (now : Int)
    (fresh_salt : Bytes) :
    List (String × DataSet) → List Setting → Except LoadErr (List Setting)
  | [], settings => .ok settings
  | (domain_name, data_set) :: rest, settings =>
    match merge_domain shuffle now fresh_salt domain_name data_set settings with
    | .error e => .error e
    | .ok settings' => merge_all shuffle now fresh_salt rest settings'

/-- Embeds `SettingsManager.load_settings` (settings_manager.py lines 37-76):
return unchanged when the stored blob is shorter than 40 bytes;
otherwise decrypt it with the settings crypter, decompress everything
after the first 4 bytes (`Packer.decompress` itself skips 4 more) —
a decompression failure is the wrong-master-password `PermissionError` —
read the 4-byte big-endian record count, JSON-parse the decompressed
bytes, raise `ValueError` when the parsed object has fewer entries than
the count, and merge the parsed records into the in-memory list.
`aesDecK key48` is AES-CBC decryption under key material `key48`;
`parse_json` is UTF-8 decoding plus `json.loads`, yielding the object's
key/value pairs in insertion order. -/
def load_settings (pbkdf2_sha256 : Bytes → Bytes → Bytes)
    (aesDecK : Bytes → Bytes → Bytes) (inflate : Bytes → Option Bytes)
    (parse_json : Bytes → Option (List (String × DataSet)))
    (shuffle : List Char → List Char) (fresh_salt : Bytes) (now : Int)
    (encrypted_settings : Bytes) (st : KgkState) (settings : List Setting) :
    Except LoadErr (List Setting) :=
  if encrypted_settings.length < 40 then .ok settings
  else
    match get_settings_crypter_key pbkdf2_sha256 st with
    | none => .error .typeError
    | some key48 =>
      match Crypter.decrypt (aesDecK key48) encrypted_settings with
      | none => .error .indexError
      | some decrypted_settings =>
        match Packer.decompress inflate (decrypted_settings.drop 4) with
        | none => .error .permissionError
        | some decompressed_settings =>
          let settings_len :=
            Packer.unpack_be32 (decrypted_settings.take 4)
          match parse_json decompressed_settings with
          | none => .error .jsonError
          | some saved_settings =>
            if saved_settings.length < settings_len then .error .valueError
            else merge_all shuffle now fresh_salt saved_settings settings

end SettingsManager

/-- The `except PermissionError` handler around
`settings_manager.load_settings` in `__main__` (password_manager.py
lines 189-193): a `PermissionError` prints "Wrong master password." and
exits with code 1; any other exception is not caught there. -/
def main_load_exit_code {α : Type} (result : Except LoadErr α) :
    Option Nat :=
  match result with
  | .error .permissionError => some 1
  | _ => none

/-- Spec-side password generation, following the wording of the claim
(spec §4.5) for comparison with the source's
`PasswordGenerator.generate`: walk the template left to right with the
digest read as a big-endian integer `N`; for each marker select the
class set `S`; if `N > 0` and `|S| > 0` append `S[N mod |S|]` and
replace `N` by `N div |S|`; once `N` reaches 0 no further character is
appended. -/
def generate_by_spec (lower_set upper_set digits_set extra_set union_set :
    List Char) : List Char → Nat → List Char
  | [], _ => []
  | _ :: _, 0 => []
  | value :: rest, n + 1 =>
    let S := if value = 'a' then lower_set
             else if value = 'A' then upper_set
             else if value = 'n' then digits_set
             else if value = 'o' then extra_set
             else union_set
    if S.length > 0 then
      S.getD ((n + 1) % S.length) 'x' ::
        generate_by_spec lower_set upper_set digits_set extra_set union_set
          rest ((n + 1) / S.length)
    else
      generate_by_spec lower_set upper_set digits_set extra_set union_set
        rest (n + 1)

/-- A concrete manager state with a 32-byte salt 2, 16-byte IV 2 and
64-byte KGK, for evaluating the wrap/unwrap path. -/
def sample_kgk_state : KgkState :=
  { key_generation_key := List.replicate 64 0,
    initialization_vector2 := some (List.replicate 16 1),
    salt2 := some (List.replicate 32 2),
    salt := List.replicate 32 3 }

/-! ## Theorems -/

namespace Crypter

theorem pad_length_pos (data : Bytes) : 0 < 16 - data.length % 16 :=
  Nat.sub_pos_of_lt (Nat.lt_of_le_of_lt (Nat.le_of_lt_succ
    (Nat.mod_lt _ (by norm_num))) (by norm_num))

theorem pad_length_le (data : Bytes) : 16 - data.length % 16 ≤ 16 :=
  Nat.sub_le _ _

theorem add_pkcs7_length (data : Bytes) :
    (add_pkcs7_padding data).length = data.length + (16 - data.length % 16) := by
  simp [add_pkcs7_padding]

theorem add_pkcs7_mod (data : Bytes) :
    (add_pkcs7_padding data).length % 16 = 0 := by
  rw [add_pkcs7_length]
  have h : data.length % 16 < 16 := Nat.mod_lt _ (by norm_num)
  omega

theorem remove_add_pkcs7 (data : Bytes) :
    remove_pkcs7_padding (add_pkcs7_padding data) = some data := by
  have hpos := pad_length_pos data
  have hle := pad_length_le data
  set n := 16 - data.length % 16 with hn
  have hlast : (add_pkcs7_padding data).getLast? = some n := by
    rw [add_pkcs7_padding, List.getLast?_append, List.getLast?_replicate,
      if_neg (Nat.pos_iff_ne_zero.mp hpos)]
    rfl
  rw [remove_pkcs7_padding, hlast]
  simp only [Option.some.injEq]
  rw [if_neg (Nat.pos_iff_ne_zero.mp hpos)]
  rw [add_pkcs7_length]
  have h1 : data.length + n - n = data.length := by omega
  rw [h1, add_pkcs7_padding, List.take_left' rfl]

end Crypter

namespace Packer

theorem pack_be32_length (n : Nat) : (pack_be32 n).length = 4 := rfl

theorem unpack_pack_be32 (n : Nat) (h : n < 2 ^ 32) :
    unpack_be32 (pack_be32 n) = n := by
  simp only [pack_be32, unpack_be32, List.foldl]
  omega

theorem decompress_compress (deflate : Bytes → Bytes)
    (inflate : Bytes → Option Bytes) (data : Bytes)
    (h : inflate (deflate data) = some data) :
    decompress inflate (compress deflate data) = some data := by
  rw [decompress, compress, List.drop_left' (pack_be32_length _), h]

end Packer

/-- C9: for every byte string `d`, stripping the PKCS7 padding added by
`add_pkcs7_padding` restores `d` exactly, the padded length is a multiple
of 16, and between 1 and 16 bytes are added (a full 16-byte block when
`d` is already a multiple of 16). -/
theorem C9_pkcs7_roundtrip (d : Bytes) :
    Crypter.remove_pkcs7_padding (Crypter.add_pkcs7_padding d) = some d ∧
    (Crypter.add_pkcs7_padding d).length % 16 = 0 ∧
    1 ≤ (Crypter.add_pkcs7_padding d).length - d.length ∧
    (Crypter.add_pkcs7_padding d).length - d.length ≤ 16 ∧
    (d.length % 16 = 0 →
      (Crypter.add_pkcs7_padding d).length = d.length + 16) := by
  have hpos := Crypter.pad_length_pos d
  have hle := Crypter.pad_length_le d
  have hlen := Crypter.add_pkcs7_length d
  refine ⟨Crypter.remove_add_pkcs7 d, Crypter.add_pkcs7_mod d, ?_, ?_, ?_⟩
  · omega
  · omega
  · intro h0
    rw [hlen, h0]

/-- Witness for C9 at a concrete 16-byte input (exercising the
full-pad-block case). -/
theorem C9_pkcs7_roundtrip_witness :
    Crypter.remove_pkcs7_padding
        (Crypter.add_pkcs7_padding (List.replicate 16 3)) =
      some (List.replicate 16 3) ∧
    (List.replicate 16 3 : Bytes).length % 16 = 0 ∧
    (Crypter.add_pkcs7_padding (List.replicate 16 3)).length =
      (List.replicate 16 3 : Bytes).length + 16 :=
  ⟨(C9_pkcs7_roundtrip (List.replicate 16 3)).1, by decide,
   (C9_pkcs7_roundtrip (List.replicate 16 3)).2.2.2.2 (by decide)⟩

/-- C10: `Packer.decompress` never reads the 4-byte uncompressed-length
prefix: for any two 4-byte prefixes `p1`, `p2` and any byte string `s`,
decompressing `p1 ++ s` and `p2 ++ s` gives the same result, namely the
inflation of `s` alone, whatever zlib's inflation function does. -/
theorem C10_decompress_ignores_length_field (inflate : Bytes → Option Bytes)
    (p1 p2 s : Bytes) (h1 : p1.length = 4) (h2 : p2.length = 4) :
    Packer.decompress inflate (p1 ++ s) = Packer.decompress inflate (p2 ++ s) ∧
    Packer.decompress inflate (p1 ++ s) = inflate s := by
  constructor
  · rw [Packer.decompress, Packer.decompress, List.drop_left' h1,
      List.drop_left' h2]
  · rw [Packer.decompress, List.drop_left' h1]

/-- Witness for C10 at concrete prefixes and payload. -/
theorem C10_decompress_ignores_length_field_witness :
    Packer.decompress (fun b => some b) ([0, 0, 0, 0] ++ [7, 7]) =
      Packer.decompress (fun b => some b) ([1, 2, 3, 4] ++ [7, 7]) ∧
    Packer.decompress (fun b => some b) ([0, 0, 0, 0] ++ [7, 7]) =
      some [7, 7] :=
  ⟨(C10_decompress_ignores_length_field (fun b => some b) [0, 0, 0, 0] [1, 2, 3, 4]
      [7, 7] (by decide) (by decide)).1,
   (C10_decompress_ignores_length_field (fun b => some b) [0, 0, 0, 0] [1, 2, 3, 4]
      [7, 7] (by decide) (by decide)).2⟩

/-! ## Behaviour lemmas for the `Setting` setters -/

theorem set_length_shape (shuffle : List Char → List Char) (n : Int)
    (s : Setting) :
    ∃ t, Setting.set_length shuffle n s = { s with length := n, template := t } := by
  unfold Setting.set_length Setting.set_complexity Setting.calculate_template
  dsimp only
  split_ifs <;> exact ⟨_, rfl⟩

theorem set_complexity_shape (shuffle : List Char → List Char) (k : Int)
    (s : Setting) :
    ∃ t, Setting.set_complexity shuffle k s = { s with template := t } := by
  unfold Setting.set_complexity Setting.calculate_template
  dsimp only
  split_ifs <;> exact ⟨_, rfl⟩

theorem set_creation_date_some (c : Int) (s : Setting) :
    Setting.set_creation_date (some c) s =
      if s.modification_date < c then
        { s with creation_date := c, modification_date := c }
      else { s with creation_date := c } := by
  unfold Setting.set_creation_date
  dsimp only

theorem set_creation_date_none (s : Setting) :
    Setting.set_creation_date none s =
      if s.modification_date < s.creation_date then
        { s with modification_date := s.creation_date }
      else s := by
  unfold Setting.set_creation_date
  dsimp only

theorem set_modification_date_some (now m : Int) (s : Setting) :
    Setting.set_modification_date now (some (some m)) s =
      if m < s.creation_date then
        { s with creation_date := m, modification_date := m }
      else { s with modification_date := m } := by
  unfold Setting.set_modification_date
  dsimp only

theorem init_fields (domain : String) (salt : Bytes) (now : Int)
    (shuffle : List Char → List Char) :
    ∃ t, Setting.init domain salt now shuffle =
      { domain := domain, username := none, fixed_password := none,
        url := none, notes := none, length := 16, iterations := 4096,
        salt := salt, creation_date := now, modification_date := now,
        extra_characters := DEFAULT_EXTRA_CHARACTERS, template := t } := by
  unfold Setting.init Setting.calculate_template
  dsimp only
  exact ⟨_, rfl⟩

theorem set_length_field (shuffle : List Char → List Char) (n : Int)
    (s : Setting) :
    (Setting.set_length shuffle n s).domain = s.domain ∧
    (Setting.set_length shuffle n s).username = s.username ∧
    (Setting.set_length shuffle n s).fixed_password = s.fixed_password ∧
    (Setting.set_length shuffle n s).url = s.url ∧
    (Setting.set_length shuffle n s).notes = s.notes ∧
    (Setting.set_length shuffle n s).length = n ∧
    (Setting.set_length shuffle n s).iterations = s.iterations ∧
    (Setting.set_length shuffle n s).salt = s.salt ∧
    (Setting.set_length shuffle n s).creation_date = s.creation_date ∧
    (Setting.set_length shuffle n s).modification_date = s.modification_date ∧
    (Setting.set_length shuffle n s).extra_characters = s.extra_characters := by
  obtain ⟨t, ht⟩ := set_length_shape shuffle n s
  rw [ht]
  exact ⟨rfl, rfl, rfl, rfl, rfl, rfl, rfl, rfl, rfl, rfl, rfl⟩

theorem set_extra_field (e : Option (List Char)) (s : Setting) :
    (Setting.set_extra_character_set e s).domain = s.domain ∧
    (Setting.set_extra_character_set e s).username = s.username ∧
    (Setting.set_extra_character_set e s).fixed_password = s.fixed_password ∧
    (Setting.set_extra_character_set e s).url = s.url ∧
    (Setting.set_extra_character_set e s).notes = s.notes ∧
    (Setting.set_extra_character_set e s).length = s.length ∧
    (Setting.set_extra_character_set e s).iterations = s.iterations ∧
    (Setting.set_extra_character_set e s).salt = s.salt ∧
    (Setting.set_extra_character_set e s).creation_date = s.creation_date ∧
    (Setting.set_extra_character_set e s).modification_date =
      s.modification_date ∧
    (Setting.set_extra_character_set e s).template = s.template := by
  unfold Setting.set_extra_character_set
  rcases e with _ | e
  · exact ⟨rfl, rfl, rfl, rfl, rfl, rfl, rfl, rfl, rfl, rfl, rfl⟩
  · dsimp only
    split_ifs <;> exact ⟨rfl, rfl, rfl, rfl, rfl, rfl, rfl, rfl, rfl, rfl, rfl⟩

theorem set_creation_date_field (cd : Option Int) (s : Setting) :
    (Setting.set_creation_date cd s).domain = s.domain ∧
    (Setting.set_creation_date cd s).username = s.username ∧
    (Setting.set_creation_date cd s).fixed_password = s.fixed_password ∧
    (Setting.set_creation_date cd s).url = s.url ∧
    (Setting.set_creation_date cd s).notes = s.notes ∧
    (Setting.set_creation_date cd s).length = s.length ∧
    (Setting.set_creation_date cd s).iterations = s.iterations ∧
    (Setting.set_creation_date cd s).salt = s.salt ∧
    (Setting.set_creation_date cd s).extra_characters = s.extra_characters ∧
    (Setting.set_creation_date cd s).template = s.template := by
  unfold Setting.set_creation_date
  rcases cd with _ | c <;> dsimp only <;> split_ifs <;>
    exact ⟨rfl, rfl, rfl, rfl, rfl, rfl, rfl, rfl, rfl, rfl⟩

theorem set_modification_date_field (now : Int) (md : Option (Option Int))
    (s : Setting) :
    (Setting.set_modification_date now md s).domain = s.domain ∧
    (Setting.set_modification_date now md s).username = s.username ∧
    (Setting.set_modification_date now md s).fixed_password =
      s.fixed_password ∧
    (Setting.set_modification_date now md s).url = s.url ∧
    (Setting.set_modification_date now md s).notes = s.notes ∧
    (Setting.set_modification_date now md s).length = s.length ∧
    (Setting.set_modification_date now md s).iterations = s.iterations ∧
    (Setting.set_modification_date now md s).salt = s.salt ∧
    (Setting.set_modification_date now md s).extra_characters =
      s.extra_characters ∧
    (Setting.set_modification_date now md s).template = s.template := by
  unfold Setting.set_modification_date
  rcases md with _ | md
  · dsimp only
    split_ifs <;> exact ⟨rfl, rfl, rfl, rfl, rfl, rfl, rfl, rfl, rfl, rfl⟩
  · rcases md with _ | m <;> dsimp only <;> split_ifs <;>
      exact ⟨rfl, rfl, rfl, rfl, rfl, rfl, rfl, rfl, rfl, rfl⟩

theorem set_creation_date_inv (cd : Option Int) (s : Setting) :
    (Setting.set_creation_date cd s).creation_date ≤
      (Setting.set_creation_date cd s).modification_date := by
  unfold Setting.set_creation_date
  rcases cd with _ | c <;> dsimp only <;> split_ifs <;> simp_all

theorem set_modification_date_inv (now : Int) (md : Option (Option Int))
    (s : Setting) :
    (Setting.set_modification_date now md s).creation_date ≤
      (Setting.set_modification_date now md s).modification_date := by
  unfold Setting.set_modification_date
  rcases md with _ | md
  · dsimp only
    split_ifs <;> simp_all
  · rcases md with _ | m <;> dsimp only <;> split_ifs <;> simp_all

theorem load_key_proj {α β : Type} (p : Setting → β) (v : Option α)
    (setter : α → Setting → Setting) (s : Setting)
    (h : ∀ a, p (setter a s) = p s) :
    p (Setting.load_key v setter s) = p s := by
  cases v with
  | none => rfl
  | some a => exact h a

theorem load_from_dict_iterations (shuffle : List Char → List Char)
    (now : Int) (ds : DataSet) (s : Setting) (k : Int)
    (hk : ds.iterations = some k) :
    (Setting.load_from_dict shuffle now ds s).iterations = k := by
  unfold Setting.load_from_dict
  rw [load_key_proj Setting.iterations _ _ _
      (fun m => (set_modification_date_field now (some m) _).2.2.2.2.2.2.1),
    load_key_proj Setting.iterations _ _ _
      (fun c => (set_creation_date_field c _).2.2.2.2.2.2.1),
    load_key_proj Setting.iterations _ _ _ (fun n => rfl),
    load_key_proj Setting.iterations _ _ _ (fun u => rfl),
    load_key_proj Setting.iterations _ _ _ (fun t => rfl),
    load_key_proj Setting.iterations _ _ _ (fun b => rfl),
    hk]
  simp [Setting.load_key, Setting.set_iterations]

theorem load_key_none {α : Type} (setter : α → Setting → Setting)
    (s : Setting) : Setting.load_key (none : Option α) setter s = s := rfl

theorem load_key_some {α : Type} (a : α) (setter : α → Setting → Setting)
    (s : Setting) : Setting.load_key (some a) setter s = setter a s := rfl

theorem load_from_dict_inv (shuffle : List Char → List Char) (now : Int)
    (ds : DataSet) (s : Setting)
    (h : s.creation_date ≤ s.modification_date) :
    (Setting.load_from_dict shuffle now ds s).creation_date ≤
      (Setting.load_from_dict shuffle now ds s).modification_date := by
  unfold Setting.load_from_dict
  cases hmd : ds.modification_date with
  | some m =>
    rw [load_key_some]
    exact set_modification_date_inv now (some m) _
  | none =>
    rw [load_key_none]
    cases hcd : ds.creation_date with
    | some c =>
      rw [load_key_some]
      exact set_creation_date_inv c _
    | none =>
      rw [load_key_none]
      rw [load_key_proj Setting.creation_date _ _ _ (fun n => rfl),
        load_key_proj Setting.creation_date _ _ _ (fun u => rfl),
        load_key_proj Setting.creation_date _ _ _ (fun t => rfl),
        load_key_proj Setting.creation_date _ _ _ (fun b => rfl),
        load_key_proj Setting.creation_date _ _ _ (fun i => rfl),
        load_key_proj Setting.creation_date _ _ _
          (fun e => (set_extra_field (some e) _).2.2.2.2.2.2.2.2.1),
        load_key_proj Setting.creation_date _ _ _
          (fun n => (set_length_field shuffle n _).2.2.2.2.2.2.2.2.1),
        load_key_proj Setting.creation_date _ _ _ (fun p => rfl),
        load_key_proj Setting.creation_date _ _ _ (fun u => rfl),
        load_key_proj Setting.modification_date _ _ _ (fun n => rfl),
        load_key_proj Setting.modification_date _ _ _ (fun u => rfl),
        load_key_proj Setting.modification_date _ _ _ (fun t => rfl),
        load_key_proj Setting.modification_date _ _ _ (fun b => rfl),
        load_key_proj Setting.modification_date _ _ _ (fun i => rfl),
        load_key_proj Setting.modification_date _ _ _
          (fun e => (set_extra_field (some e) _).2.2.2.2.2.2.2.2.2.1),
        load_key_proj Setting.modification_date _ _ _
          (fun n => (set_length_field shuffle n _).2.2.2.2.2.2.2.2.2.1),
        load_key_proj Setting.modification_date _ _ _ (fun p => rfl),
        load_key_proj Setting.modification_date _ _ _ (fun u => rfl)]
      exact h

/-- C6: the claimed law `get_complexity (set_complexity k) = k` breaks at
`k = 5` although the setting is long enough for both enabled classes:
`set_complexity 5` builds a digits-and-upper-case template (markers `n`
and `A`, per its own docstring), but `get_complexity` tests a
lower-and-upper-case combination for the answer 5, so the digits-and-
upper-case combination falls through every branch and yields -1.
Evaluated at a fresh 16-character setting with the identity shuffle. -/
theorem C6_set_get_complexity_5_fails :
    (Setting.init "example.com" (List.replicate 32 0) 0 id).length = 16 ∧
    Setting.get_complexity
      (Setting.set_complexity id 5
        (Setting.init "example.com" (List.replicate 32 0) 0 id)) = -1 ∧
    ¬ Setting.get_complexity
        (Setting.set_complexity id 5
          (Setting.init "example.com" (List.replicate 32 0) 0 id)) = 5 := by
  decide

/-- C7 counterexample: the claim says a violating incoming update
promotes the smaller of the two date fields to the larger one, but
`set_modification_date` with an incoming date older than the creation
date instead *lowers* the creation date: starting from a record with
both dates 100, setting the modification date to 50 leaves both fields
at 50, not at 100. -/
theorem C7_counterexample :
    ((Setting.init "d" (List.replicate 32 0) 100 id).set_modification_date 0
        (some (some 50))).creation_date = 50 ∧
    ((Setting.init "d" (List.replicate 32 0) 100 id).set_modification_date 0
        (some (some 50))).modification_date = 50 ∧
    (Setting.init "d" (List.replicate 32 0) 100 id).creation_date = 100 ∧
    (Setting.init "d" (List.replicate 32 0) 100 id).modification_date = 100 ∧
    ¬ (50 : Int) = 100 := by
  decide

/-- C7 (amended): `modification_date ≥ creation_date` holds after
construction, `set_creation_date`, `set_modification_date`, and (when it
held before) `load_from_dict`; a violating update in `set_creation_date`
promotes the modification date up to the new creation date, while a
violating update in `set_modification_date` lowers the creation date
down to the new modification date. -/
theorem C7_amended_dates :
    (∀ (domain : String) (salt : Bytes) (now : Int)
        (shuffle : List Char → List Char),
      (Setting.init domain salt now shuffle).creation_date ≤
        (Setting.init domain salt now shuffle).modification_date) ∧
    (∀ (cd : Option Int) (s : Setting),
      (Setting.set_creation_date cd s).creation_date ≤
        (Setting.set_creation_date cd s).modification_date) ∧
    (∀ (now : Int) (md : Option (Option Int)) (s : Setting),
      (Setting.set_modification_date now md s).creation_date ≤
        (Setting.set_modification_date now md s).modification_date) ∧
    (∀ (shuffle : List Char → List Char) (now : Int) (ds : DataSet)
        (s : Setting), s.creation_date ≤ s.modification_date →
      (Setting.load_from_dict shuffle now ds s).creation_date ≤
        (Setting.load_from_dict shuffle now ds s).modification_date) ∧
    (∀ (c : Int) (s : Setting), s.modification_date < c →
      (Setting.set_creation_date (some c) s).creation_date = c ∧
      (Setting.set_creation_date (some c) s).modification_date = c) ∧
    (∀ (now m : Int) (s : Setting), m < s.creation_date →
      (Setting.set_modification_date now (some (some m)) s).creation_date =
        m ∧
      (Setting.set_modification_date now (some (some m)) s).modification_date
        = m) := by
  refine ⟨?_, set_creation_date_inv, set_modification_date_inv,
    load_from_dict_inv, ?_, ?_⟩
  · intro domain salt now shuffle
    obtain ⟨t, ht⟩ := init_fields domain salt now shuffle
    rw [ht]
  · intro c s h
    rw [set_creation_date_some, if_pos h]
    exact ⟨rfl, rfl⟩
  · intro now m s h
    rw [set_modification_date_some, if_pos h]
    exact ⟨rfl, rfl⟩

/-- Witness for C7 (amended) at concrete records. -/
theorem C7_amended_dates_witness :
    ((Setting.init "e" [] 5 id).creation_date ≤
      (Setting.init "e" [] 5 id).modification_date ∧
      (Setting.load_from_dict id 0
          (Setting.to_dict (Setting.init "d" [] 0 id))
          (Setting.init "e" [] 5 id)).creation_date ≤
        (Setting.load_from_dict id 0
          (Setting.to_dict (Setting.init "d" [] 0 id))
          (Setting.init "e" [] 5 id)).modification_date) ∧
    ((Setting.init "d" [] 0 id).modification_date < 7 ∧
      (Setting.set_creation_date (some 7)
        (Setting.init "d" [] 0 id)).creation_date = 7 ∧
      (Setting.set_creation_date (some 7)
        (Setting.init "d" [] 0 id)).modification_date = 7) :=
  ⟨⟨by decide,
    C7_amended_dates.2.2.2.1 id 0 (Setting.to_dict (Setting.init "d" [] 0 id))
      (Setting.init "e" [] 5 id) (by decide)⟩,
   by decide,
   (C7_amended_dates.2.2.2.2.1 7 (Setting.init "d" [] 0 id) (by decide)).1,
   (C7_amended_dates.2.2.2.2.1 7 (Setting.init "d" [] 0 id) (by decide)).2⟩

/-- C8 counterexample: a record loaded from a dictionary whose
iterations value is 0 keeps iterations 0 — the field is not defaulted to
4096 at load time. -/
theorem C8_counterexample :
    (Setting.load_from_dict id 0
        { domain_name := none, username := none, fixed_password := none,
          length := none, extra_character_set := none, iterations := some 0,
          salt := none, template := none, url := none, notes := none,
          creation_date := none, modification_date := none, mDate := none }
        (Setting.init "example.com" (List.replicate 32 0) 0 id)).iterations
      = 0 ∧ ¬ ((0 : Int) = 4096) := by
  decide

/-- C8 (amended): after a load, the record's iterations field equals the
stored value unchanged (so a value below 1 persists in the record); the
substitution of 4096 happens at password-generation time, in
`PasswordGenerator.__init__`, which hashes with 4096 iterations whenever
the requested count is below 1. -/
theorem C8_amended_iterations :
    (∀ (shuffle : List Char → List Char) (now : Int) (ds : DataSet)
        (s : Setting) (k : Int), ds.iterations = some k →
      (Setting.load_from_dict shuffle now ds s).iterations = k) ∧
    (∀ (pbkdf2_sha512 : Bytes → Bytes → Int → Bytes)
        (domain kgk salt : Bytes) (iterations : Int), iterations < 1 →
      PasswordGenerator.hash_value pbkdf2_sha512 domain kgk salt iterations =
        pbkdf2_sha512 (domain ++ kgk) salt 4096) := by
  refine ⟨load_from_dict_iterations, ?_⟩
  intro pb domain kgk salt iterations h
  unfold PasswordGenerator.hash_value
  rw [if_pos h]

/-- Witness for C8 (amended) at a concrete record and generator. -/
theorem C8_amended_iterations_witness :
    (({ domain_name := none, username := none, fixed_password := none,
        length := none, extra_character_set := none, iterations := some 0,
        salt := none, template := none, url := none, notes := none,
        creation_date := none, modification_date := none,
        mDate := none } : DataSet).iterations = some 0 ∧
      (Setting.load_from_dict id 0
        { domain_name := none, username := none, fixed_password := none,
          length := none, extra_character_set := none, iterations := some 0,
          salt := none, template := none, url := none, notes := none,
          creation_date := none, modification_date := none, mDate := none }
        (Setting.init "d" [] 0 id)).iterations = 0) ∧
    ((0 : Int) < 1 ∧
      PasswordGenerator.hash_value (fun _ _ i => [i.toNat]) [1] [2] [3] 0 =
        (fun (_ _ : Bytes) (i : Int) => [i.toNat]) ([1] ++ [2]) [3] 4096) :=
  ⟨⟨rfl, C8_amended_iterations.1 id 0 _ (Setting.init "d" [] 0 id) 0 rfl⟩,
   by decide,
   C8_amended_iterations.2 (fun _ _ i => [i.toNat]) [1] [2] [3] 0 (by decide)⟩

theorem generate_loop_zero (lower_set upper_set digits_set extra_set
    union_set : List Char) (t : List Char) :
    PasswordGenerator.generate_loop lower_set upper_set digits_set extra_set
      union_set t 0 = [] := by
  induction t with
  | nil => rfl
  | cons c rest ih =>
    unfold PasswordGenerator.generate_loop
    simpa using ih

theorem generate_loop_eq_spec (lower_set upper_set digits_set extra_set
    union_set : List Char) (t : List Char) (n : Nat) :
    PasswordGenerator.generate_loop lower_set upper_set digits_set extra_set
      union_set t n =
    generate_by_spec lower_set upper_set digits_set extra_set union_set t n := by
  induction t generalizing n with
  | nil => rfl
  | cons c rest ih =>
    cases n with
    | zero =>
      rw [generate_loop_zero]
      rfl
    | succ m =>
      unfold PasswordGenerator.generate_loop generate_by_spec
      dsimp only
      rw [if_pos (Nat.succ_pos m)]
      split_ifs <;> simp_all [ih]

theorem generate_by_spec_length (lower_set upper_set digits_set extra_set
    union_set : List Char) (t : List Char) (n : Nat) :
    (generate_by_spec lower_set upper_set digits_set extra_set union_set
      t n).length ≤ t.length := by
  induction t generalizing n with
  | nil => simp [generate_by_spec]
  | cons c rest ih =>
    cases n with
    | zero => simp [generate_by_spec]
    | succ m =>
      unfold generate_by_spec
      dsimp only
      split_ifs <;>
        first
          | simpa using Nat.succ_le_succ (ih _)
          | exact Nat.le_succ_of_le (ih _)

/-- C2: for every domain, KGK, salt, iteration count at least 1,
template, and character sets, the source's generator returns exactly the
string described by the spec: the PBKDF2-HMAC-SHA512 digest of the UTF-8
domain bytes followed by the raw KGK bytes, under the salt and iteration
count, is read as one big-endian integer `N`; the template is walked
left to right appending `S[N mod |S|]` and replacing `N` by
`N div |S|` whenever `N > 0` and the selected class set `S` is
non-empty, stopping once `N` reaches 0; hence the output is at most as
long as the template. -/
theorem C2_generate_matches_spec (pbkdf2_sha512 : Bytes → Bytes → Int → Bytes)
    (domain kgk salt : Bytes) (iterations : Int) (setting : Setting)
    (h : 1 ≤ iterations) :
    PasswordGenerator.generate
        (PasswordGenerator.hash_value pbkdf2_sha512 domain kgk salt iterations)
        setting =
      generate_by_spec DEFAULT_LOWER_CASE_CHARACTERS
        DEFAULT_UPPER_CASE_CHARACTERS DEFAULT_DIGITS
        setting.extra_characters setting.get_character_set setting.template
        (PasswordGenerator.bytes_to_nat
          (pbkdf2_sha512 (domain ++ kgk) salt iterations)) ∧
    (PasswordGenerator.generate
        (PasswordGenerator.hash_value pbkdf2_sha512 domain kgk salt iterations)
        setting).length ≤ setting.template.length := by
  have hiter : ¬ iterations < 1 := by omega
  unfold PasswordGenerator.generate PasswordGenerator.hash_value
  rw [if_neg hiter]
  refine ⟨generate_loop_eq_spec _ _ _ _ _ _ _, ?_⟩
  rw [generate_loop_eq_spec]
  exact generate_by_spec_length _ _ _ _ _ _ _

/-- Witness for C2 at a concrete digest, domain and setting. -/
theorem C2_generate_matches_spec_witness :
    (1 : Int) ≤ 1 ∧
    (PasswordGenerator.generate
        (PasswordGenerator.hash_value (fun _ _ _ => [1]) [10] [20] [30] 1)
        (Setting.init "d" [] 0 id) =
      generate_by_spec DEFAULT_LOWER_CASE_CHARACTERS
        DEFAULT_UPPER_CASE_CHARACTERS DEFAULT_DIGITS
        (Setting.init "d" [] 0 id).extra_characters
        (Setting.init "d" [] 0 id).get_character_set
        (Setting.init "d" [] 0 id).template
        (PasswordGenerator.bytes_to_nat
          ((fun (_ _ : Bytes) (_ : Int) => ([1] : Bytes)) ([10] ++ [20]) [30]
            1)) ∧
    (PasswordGenerator.generate
        (PasswordGenerator.hash_value (fun _ _ _ => [1]) [10] [20] [30] 1)
        (Setting.init "d" [] 0 id)).length ≤
      (Setting.init "d" [] 0 id).template.length) :=
  ⟨by decide,
   C2_generate_matches_spec (fun _ _ _ => [1]) [10] [20] [30] 1
     (Setting.init "d" [] 0 id) (by decide)⟩

/-- C5 counterexample: with the identity as the (length-preserving)
AES-CBC transform, the wrapped KGK block produced by the key manager
from a 32-byte inner salt, 16-byte inner IV and 64-byte KGK is 112
bytes — the plaintext `inner_salt ++ inner_iv ++ KGK` is 112 bytes, not
80 as the claim states. -/
theorem C5_counterexample :
    (KgkState.get_encrypted_key_generation_key_block id
        sample_kgk_state).map List.length = some 112 ∧
    ¬ (KgkState.get_encrypted_key_generation_key_block id
        sample_kgk_state).map List.length = some 80 := by
  decide

/-- C5 (amended): the wrapped KGK block is the unpadded AES-CBC
ciphertext of the 112-byte plaintext
`inner_salt (32) ++ inner_iv (16) ++ KGK (64)`, and is itself always 112
bytes because unpadded AES-CBC preserves the length of block-aligned
input; on unwrap, a block of length exactly 112 is decrypted without
padding and sliced at offsets [0,32), [32,48) and [48,112) into inner
salt, inner IV and KGK, while a block of any other length causes a fresh
KGK and fresh inner salt/IV to be installed instead. -/
theorem C5_amended_kgk_block (aesE aesD : Bytes → Bytes) (st : KgkState)
    (s2 iv2 : Bytes) (hs2 : st.salt2 = some s2)
    (hiv : st.initialization_vector2 = some iv2) (hl2 : s2.length = 32)
    (hliv : iv2.length = 16) (hlk : st.key_generation_key.length = 64)
    (hpres : (aesE (s2 ++ iv2 ++ st.key_generation_key)).length =
      (s2 ++ iv2 ++ st.key_generation_key).length) :
    (KgkState.get_encrypted_key_generation_key_block aesE st =
        some (aesE (s2 ++ iv2 ++ st.key_generation_key)) ∧
      (s2 ++ iv2 ++ st.key_generation_key).length = 112 ∧
      (aesE (s2 ++ iv2 ++ st.key_generation_key)).length = 112) ∧
    (∀ (enc fresh_kgk fresh_iv2 fresh_salt2 : Bytes), enc.length = 112 →
      KgkState.decrypt_key_generation_key aesD fresh_kgk fresh_iv2 fresh_salt2
          enc st =
        { st with salt2 := some ((aesD enc).take 32),
                  initialization_vector2 :=
                    some (((aesD enc).drop 32).take 16),
                  key_generation_key := ((aesD enc).drop 48).take 64 }) ∧
    (∀ (enc fresh_kgk fresh_iv2 fresh_salt2 : Bytes), ¬ enc.length = 112 →
      KgkState.decrypt_key_generation_key aesD fresh_kgk fresh_iv2 fresh_salt2
          enc st =
        { st with key_generation_key := fresh_kgk,
                  initialization_vector2 := some fresh_iv2,
                  salt2 := some fresh_salt2 }) := by
  have hplain : (s2 ++ iv2 ++ st.key_generation_key).length = 112 := by
    simp [hl2, hliv, hlk]
  refine ⟨⟨?_, hplain, by rw [hpres, hplain]⟩, ?_, ?_⟩
  · unfold KgkState.get_encrypted_key_generation_key_block
    rw [hs2, hiv]
    rfl
  · intro enc fresh_kgk fresh_iv2 fresh_salt2 henc
    unfold KgkState.decrypt_key_generation_key
    rw [if_pos henc]
    rfl
  · intro enc fresh_kgk fresh_iv2 fresh_salt2 henc
    unfold KgkState.decrypt_key_generation_key
    rw [if_neg henc]

/-- Witness for C5 (amended) at the identity AES transform and concrete
112-byte and 2-byte blocks. -/
theorem C5_amended_kgk_block_witness :
    (KgkState.get_encrypted_key_generation_key_block id sample_kgk_state =
      some (id (List.replicate 32 2 ++ List.replicate 16 1 ++
        List.replicate 64 0)) ∧
     (List.replicate 32 2 ++ List.replicate 16 1 ++
       (List.replicate 64 0 : Bytes)).length = 112) ∧
    ((List.replicate 112 5 : Bytes).length = 112 ∧
      KgkState.decrypt_key_generation_key id [7] [8] [9]
          (List.replicate 112 5) sample_kgk_state =
        { sample_kgk_state with
            salt2 := some ((id (List.replicate 112 (5 : Nat))).take 32),
            initialization_vector2 :=
              some (((id (List.replicate 112 (5 : Nat))).drop 32).take 16),
            key_generation_key :=
              ((id (List.replicate 112 (5 : Nat))).drop 48).take 64 }) ∧
    (¬ ([1, 2] : Bytes).length = 112 ∧
      KgkState.decrypt_key_generation_key id [7] [8] [9] [1, 2]
          sample_kgk_state =
        { sample_kgk_state with
            key_generation_key := [7],
            initialization_vector2 := some [8],
            salt2 := some [9] }) :=
  ⟨⟨(C5_amended_kgk_block id id sample_kgk_state (List.replicate 32 2)
      (List.replicate 16 1) rfl rfl (by decide) (by decide) (by decide)
      rfl).1.1,
    (C5_amended_kgk_block id id sample_kgk_state (List.replicate 32 2)
      (List.replicate 16 1) rfl rfl (by decide) (by decide) (by decide)
      rfl).1.2.1⟩,
   ⟨by decide,
    (C5_amended_kgk_block id id sample_kgk_state (List.replicate 32 2)
      (List.replicate 16 1) rfl rfl (by decide) (by decide) (by decide)
      rfl).2.1 (List.replicate 112 5) [7] [8] [9] (by decide)⟩,
   ⟨by decide,
    (C5_amended_kgk_block id id sample_kgk_state (List.replicate 32 2)
      (List.replicate 16 1) rfl rfl (by decide) (by decide) (by decide)
      rfl).2.2 [1, 2] [7] [8] [9] (by decide)⟩⟩

theorem set_extra_some_of_ne (e : List Char) (he : e ≠ []) (s : Setting) :
    (Setting.set_extra_character_set (some e) s).extra_characters = e := by
  unfold Setting.set_extra_character_set
  dsimp only
  rw [if_neg (by simpa using he)]

theorem set_cd_md_dates (now cs ms : Int) (X : Setting) (h : cs ≤ ms) :
    (Setting.set_modification_date now (some (some ms))
      (Setting.set_creation_date (some cs) X)).creation_date = cs ∧
    (Setting.set_modification_date now (some (some ms))
      (Setting.set_creation_date (some cs) X)).modification_date = ms := by
  rw [set_creation_date_some]
  split_ifs with h1
  · rw [set_modification_date_some]
    split_ifs with h2
    · exact absurd h2 (by simp; omega)
    · exact ⟨rfl, rfl⟩
  · rw [set_modification_date_some]
    split_ifs with h2
    · exact absurd h2 (by simp; omega)
    · exact ⟨rfl, rfl⟩

set_option maxHeartbeats 2000000 in
theorem to_dict_load_roundtrip (shuffle shuffle' : List Char → List Char)
    (salt0 : Bytes) (now now' : Int) (s : Setting)
    (hex : s.extra_characters ≠ [])
    (hcm : s.creation_date ≤ s.modification_date) :
    Setting.to_dict
      (Setting.load_from_dict shuffle now (Setting.to_dict s)
        (Setting.init s.domain salt0 now' shuffle')) = Setting.to_dict s := by
  obtain ⟨t0, ht0⟩ := init_fields s.domain salt0 now' shuffle'
  have hdom : (Setting.load_from_dict shuffle now (Setting.to_dict s)
        (Setting.init s.domain salt0 now' shuffle')).domain = s.domain := by
    rw [ht0]
    unfold Setting.load_from_dict
    rw [load_key_proj Setting.domain _ _ _ (fun m => (set_modification_date_field now (some m) _).1),
      load_key_proj Setting.domain _ _ _ (fun c => (set_creation_date_field c _).1),
      load_key_proj Setting.domain _ _ _ (fun n => rfl),
      load_key_proj Setting.domain _ _ _ (fun u => rfl),
      load_key_proj Setting.domain _ _ _ (fun t => rfl),
      load_key_proj Setting.domain _ _ _ (fun b => rfl),
      load_key_proj Setting.domain _ _ _ (fun i => rfl),
      load_key_proj Setting.domain _ _ _ (fun e => (set_extra_field (some e) _).1),
      load_key_proj Setting.domain _ _ _ (fun n => (set_length_field shuffle n _).1),
      load_key_proj Setting.domain _ _ _ (fun p => rfl),
      load_key_proj Setting.domain _ _ _ (fun u => rfl)]
  have husr : (Setting.load_from_dict shuffle now (Setting.to_dict s)
        (Setting.init s.domain salt0 now' shuffle')).username = (Setting.to_dict s).username := by
    rw [ht0]
    unfold Setting.load_from_dict
    rw [load_key_proj Setting.username _ _ _ (fun m => (set_modification_date_field now (some m) _).2.1),
      load_key_proj Setting.username _ _ _ (fun c => (set_creation_date_field c _).2.1),
      load_key_proj Setting.username _ _ _ (fun n => rfl),
      load_key_proj Setting.username _ _ _ (fun u => rfl),
      load_key_proj Setting.username _ _ _ (fun t => rfl),
      load_key_proj Setting.username _ _ _ (fun b => rfl),
      load_key_proj Setting.username _ _ _ (fun i => rfl),
      load_key_proj Setting.username _ _ _ (fun e => (set_extra_field (some e) _).2.1),
      load_key_proj Setting.username _ _ _ (fun n => (set_length_field shuffle n _).2.1),
      load_key_proj Setting.username _ _ _ (fun p => rfl)]
    cases hv : (Setting.to_dict s).username with
    | none =>
      rw [load_key_none]
    | some u =>
      rw [load_key_some]
      rfl
  have hfpw : (Setting.load_from_dict shuffle now (Setting.to_dict s)
        (Setting.init s.domain salt0 now' shuffle')).fixed_password = (Setting.to_dict s).fixed_password := by
    rw [ht0]
    unfold Setting.load_from_dict
    rw [load_key_proj Setting.fixed_password _ _ _ (fun m => (set_modification_date_field now (some m) _).2.2.1),
      load_key_proj Setting.fixed_password _ _ _ (fun c => (set_creation_date_field c _).2.2.1),
      load_key_proj Setting.fixed_password _ _ _ (fun n => rfl),
      load_key_proj Setting.fixed_password _ _ _ (fun u => rfl),
      load_key_proj Setting.fixed_password _ _ _ (fun t => rfl),
      load_key_proj Setting.fixed_password _ _ _ (fun b => rfl),
      load_key_proj Setting.fixed_password _ _ _ (fun i => rfl),
      load_key_proj Setting.fixed_password _ _ _ (fun e => (set_extra_field (some e) _).2.2.1),
      load_key_proj Setting.fixed_password _ _ _ (fun n => (set_length_field shuffle n _).2.2.1)]
    cases hv : (Setting.to_dict s).fixed_password with
    | none =>
      rw [load_key_none]
      rw [load_key_proj Setting.fixed_password _ _ _ (fun u => rfl)]
    | some u =>
      rw [load_key_some]
      rfl
  have hhurl : (Setting.load_from_dict shuffle now (Setting.to_dict s)
        (Setting.init s.domain salt0 now' shuffle')).url = (Setting.to_dict s).url := by
    rw [ht0]
    unfold Setting.load_from_dict
    rw [load_key_proj Setting.url _ _ _ (fun m => (set_modification_date_field now (some m) _).2.2.2.1),
      load_key_proj Setting.url _ _ _ (fun c => (set_creation_date_field c _).2.2.2.1),
      load_key_proj Setting.url _ _ _ (fun n => rfl)]
    cases hv : (Setting.to_dict s).url with
    | none =>
      rw [load_key_none]
      rw [load_key_proj Setting.url _ _ _ (fun t => rfl),
        load_key_proj Setting.url _ _ _ (fun b => rfl),
        load_key_proj Setting.url _ _ _ (fun i => rfl),
        load_key_proj Setting.url _ _ _ (fun e => (set_extra_field (some e) _).2.2.2.1),
        load_key_proj Setting.url _ _ _ (fun n => (set_length_field shuffle n _).2.2.2.1),
        load_key_proj Setting.url _ _ _ (fun p => rfl),
        load_key_proj Setting.url _ _ _ (fun u => rfl)]
    | some u =>
      rw [load_key_some]
      rfl
  have hhnot : (Setting.load_from_dict shuffle now (Setting.to_dict s)
        (Setting.init s.domain salt0 now' shuffle')).notes = (Setting.to_dict s).notes := by
    rw [ht0]
    unfold Setting.load_from_dict
    rw [load_key_proj Setting.notes _ _ _ (fun m => (set_modification_date_field now (some m) _).2.2.2.2.1),
      load_key_proj Setting.notes _ _ _ (fun c => (set_creation_date_field c _).2.2.2.2.1)]
    cases hv : (Setting.to_dict s).notes with
    | none =>
      rw [load_key_none]
      rw [load_key_proj Setting.notes _ _ _ (fun u => rfl),
        load_key_proj Setting.notes _ _ _ (fun t => rfl),
        load_key_proj Setting.notes _ _ _ (fun b => rfl),
        load_key_proj Setting.notes _ _ _ (fun i => rfl),
        load_key_proj Setting.notes _ _ _ (fun e => (set_extra_field (some e) _).2.2.2.2.1),
        load_key_proj Setting.notes _ _ _ (fun n => (set_length_field shuffle n _).2.2.2.2.1),
        load_key_proj Setting.notes _ _ _ (fun p => rfl),
        load_key_proj Setting.notes _ _ _ (fun u => rfl)]
    | some u =>
      rw [load_key_some]
      rfl
  have hlen : (Setting.load_from_dict shuffle now (Setting.to_dict s)
        (Setting.init s.domain salt0 now' shuffle')).length = s.length := by
    rw [ht0]
    unfold Setting.load_from_dict
    rw [load_key_proj Setting.length _ _ _ (fun m => (set_modification_date_field now (some m) _).2.2.2.2.2.1),
      load_key_proj Setting.length _ _ _ (fun c => (set_creation_date_field c _).2.2.2.2.2.1),
      load_key_proj Setting.length _ _ _ (fun n => rfl),
      load_key_proj Setting.length _ _ _ (fun u => rfl),
      load_key_proj Setting.length _ _ _ (fun t => rfl),
      load_key_proj Setting.length _ _ _ (fun b => rfl),
      load_key_proj Setting.length _ _ _ (fun i => rfl),
      load_key_proj Setting.length _ _ _ (fun e => (set_extra_field (some e) _).2.2.2.2.2.1)]
    rw [show (Setting.to_dict s).length = some s.length from rfl,
      load_key_some]
    exact (set_length_field shuffle s.length _).2.2.2.2.2.1
  have hiter : (Setting.load_from_dict shuffle now (Setting.to_dict s)
        (Setting.init s.domain salt0 now' shuffle')).iterations = s.iterations := by
    rw [ht0]
    unfold Setting.load_from_dict
    rw [load_key_proj Setting.iterations _ _ _ (fun m => (set_modification_date_field now (some m) _).2.2.2.2.2.2.1),
      load_key_proj Setting.iterations _ _ _ (fun c => (set_creation_date_field c _).2.2.2.2.2.2.1),
      load_key_proj Setting.iterations _ _ _ (fun n => rfl),
      load_key_proj Setting.iterations _ _ _ (fun u => rfl),
      load_key_proj Setting.iterations _ _ _ (fun t => rfl),
      load_key_proj Setting.iterations _ _ _ (fun b => rfl)]
    rw [show (Setting.to_dict s).iterations = some s.iterations from rfl,
      load_key_some]
    rfl
  have hsalt : (Setting.load_from_dict shuffle now (Setting.to_dict s)
        (Setting.init s.domain salt0 now' shuffle')).salt = s.salt := by
    rw [ht0]
    unfold Setting.load_from_dict
    rw [load_key_proj Setting.salt _ _ _ (fun m => (set_modification_date_field now (some m) _).2.2.2.2.2.2.2.1),
      load_key_proj Setting.salt _ _ _ (fun c => (set_creation_date_field c _).2.2.2.2.2.2.2.1),
      load_key_proj Setting.salt _ _ _ (fun n => rfl),
      load_key_proj Setting.salt _ _ _ (fun u => rfl),
      load_key_proj Setting.salt _ _ _ (fun t => rfl)]
    rw [show (Setting.to_dict s).salt = some s.salt from rfl, load_key_some]
    rfl
  have htpl : (Setting.load_from_dict shuffle now (Setting.to_dict s)
        (Setting.init s.domain salt0 now' shuffle')).template = s.template := by
    rw [ht0]
    unfold Setting.load_from_dict
    rw [load_key_proj Setting.template _ _ _ (fun m => (set_modification_date_field now (some m) _).2.2.2.2.2.2.2.2.2),
      load_key_proj Setting.template _ _ _ (fun c => (set_creation_date_field c _).2.2.2.2.2.2.2.2.2),
      load_key_proj Setting.template _ _ _ (fun n => rfl),
      load_key_proj Setting.template _ _ _ (fun u => rfl)]
    rw [show (Setting.to_dict s).template = some s.template from rfl,
      load_key_some]
  have hext : (Setting.load_from_dict shuffle now (Setting.to_dict s)
        (Setting.init s.domain salt0 now' shuffle')).extra_characters = s.extra_characters := by
    rw [ht0]
    unfold Setting.load_from_dict
    rw [load_key_proj Setting.extra_characters _ _ _ (fun m => (set_modification_date_field now (some m) _).2.2.2.2.2.2.2.2.1),
      load_key_proj Setting.extra_characters _ _ _ (fun c => (set_creation_date_field c _).2.2.2.2.2.2.2.2.1),
      load_key_proj Setting.extra_characters _ _ _ (fun n => rfl),
      load_key_proj Setting.extra_characters _ _ _ (fun u => rfl),
      load_key_proj Setting.extra_characters _ _ _ (fun t => rfl),
      load_key_proj Setting.extra_characters _ _ _ (fun b => rfl),
      load_key_proj Setting.extra_characters _ _ _ (fun i => rfl)]
    rw [show (Setting.to_dict s).extra_character_set =
        some s.extra_characters from rfl, load_key_some]
    exact set_extra_some_of_ne s.extra_characters hex _
  have hdates : (Setting.load_from_dict shuffle now (Setting.to_dict s)
        (Setting.init s.domain salt0 now' shuffle')).creation_date = s.creation_date ∧
      (Setting.load_from_dict shuffle now (Setting.to_dict s)
        (Setting.init s.domain salt0 now' shuffle')).modification_date = s.modification_date := by
    rw [ht0]
    unfold Setting.load_from_dict
    rw [show (Setting.to_dict s).modification_date =
        some (some s.modification_date) from rfl,
      show (Setting.to_dict s).creation_date =
        some (some s.creation_date) from rfl, load_key_some, load_key_some]
    exact set_cd_md_dates now s.creation_date s.modification_date _ hcm
  obtain ⟨r, hr⟩ : ∃ r, Setting.load_from_dict shuffle now (Setting.to_dict s)
      (Setting.init s.domain salt0 now' shuffle') = r := ⟨_, rfl⟩
  rw [hr] at hdom husr hfpw hhurl hhnot hlen hiter hsalt htpl hext hdates
  rw [hr]
  simp only [Setting.to_dict, Setting.get_username, Setting.get_fixed_password,
    Setting.get_url, Setting.get_notes]
  rw [hdom, husr, hfpw, hhurl, hhnot, hlen, hiter, hsalt, htpl, hext,
    hdates.1, hdates.2]
  clear hdom husr hfpw hhurl hhnot hlen hiter hsalt htpl hext hdates hr ht0
  simp only [Setting.to_dict, Setting.get_username, Setting.get_fixed_password,
    Setting.get_url, Setting.get_notes]
  by_cases h1 : s.username.getD "" = "" <;>
    by_cases h2 : s.fixed_password.getD "" = "" <;>
    by_cases h3 : s.url.getD "" = "" <;>
    by_cases h4 : s.notes.getD "" = "" <;>
    simp [h1, h2, h3, h4]

theorem load_from_dict_domain (shuffle : List Char → List Char) (now : Int)
    (ds : DataSet) (s : Setting) :
    (Setting.load_from_dict shuffle now ds s).domain = s.domain := by
  unfold Setting.load_from_dict
  rw [load_key_proj Setting.domain _ _ _
      (fun m => (set_modification_date_field now (some m) _).1),
    load_key_proj Setting.domain _ _ _
      (fun c => (set_creation_date_field c _).1),
    load_key_proj Setting.domain _ _ _ (fun n => rfl),
    load_key_proj Setting.domain _ _ _ (fun u => rfl),
    load_key_proj Setting.domain _ _ _ (fun t => rfl),
    load_key_proj Setting.domain _ _ _ (fun b => rfl),
    load_key_proj Setting.domain _ _ _ (fun i => rfl),
    load_key_proj Setting.domain _ _ _
      (fun e => (set_extra_field (some e) _).1),
    load_key_proj Setting.domain _ _ _
      (fun n => (set_length_field shuffle n _).1),
    load_key_proj Setting.domain _ _ _ (fun p => rfl),
    load_key_proj Setting.domain _ _ _ (fun u => rfl)]

theorem init_domain (d : String) (salt : Bytes) (now : Int)
    (shuffle : List Char → List Char) :
    (Setting.init d salt now shuffle).domain = d := by
  obtain ⟨t, ht⟩ := init_fields d salt now shuffle
  rw [ht]

theorem merge_scan_not_found (shuffle : List Char → List Char) (now : Int)
    (dn : String) (ds : DataSet) :
    ∀ l : List Setting, (∀ st ∈ l, st.domain ≠ dn) →
      SettingsManager.merge_scan shuffle now dn ds l = .ok (l, false) := by
  intro l
  induction l with
  | nil => intro _; rfl
  | cons st rest ih =>
    intro h
    unfold SettingsManager.merge_scan
    rw [if_neg (h st (List.mem_cons_self st rest))]
    rw [ih (fun st' hst' => h st' (List.mem_cons_of_mem st hst'))]

theorem merge_scan_no_perm (shuffle : List Char → List Char) (now : Int)
    (dn : String) (ds : DataSet) :
    ∀ l : List Setting,
      ¬ SettingsManager.merge_scan shuffle now dn ds l =
        .error LoadErr.permissionError := by
  intro l
  induction l with
  | nil => simp [SettingsManager.merge_scan]
  | cons st rest ih =>
    unfold SettingsManager.merge_scan
    split_ifs with hd
    · cases hmD : ds.mDate with
      | none => simp
      | some v =>
        cases v with
        | none => simp
        | some md =>
          cases hrec : SettingsManager.merge_scan shuffle now dn ds rest with
          | error e =>
            rw [hrec] at ih
            simpa using fun he => ih (by rw [he])
          | ok pr => simp
    · cases hrec : SettingsManager.merge_scan shuffle now dn ds rest with
      | error e =>
        rw [hrec] at ih
        simpa using fun he => ih (by rw [he])
      | ok pr => simp

theorem merge_domain_no_perm (shuffle : List Char → List Char) (now : Int)
    (fresh_salt : Bytes) (dn : String) (ds : DataSet) (l : List Setting) :
    ¬ SettingsManager.merge_domain shuffle now fresh_salt dn ds l =
      .error LoadErr.permissionError := by
  unfold SettingsManager.merge_domain
  cases hscan : SettingsManager.merge_scan shuffle now dn ds l with
  | error e =>
    have := merge_scan_no_perm shuffle now dn ds l
    rw [hscan] at this
    simpa using fun he => this (by rw [he])
  | ok pr =>
    cases pr with
    | mk l' found => cases found <;> simp

theorem merge_all_no_perm (shuffle : List Char → List Char) (now : Int)
    (fresh_salt : Bytes) :
    ∀ (pairs : List (String × DataSet)) (l : List Setting),
      ¬ SettingsManager.merge_all shuffle now fresh_salt pairs l =
        .error LoadErr.permissionError := by
  intro pairs
  induction pairs with
  | nil => intro l; simp [SettingsManager.merge_all]
  | cons p rest ih =>
    intro l
    cases p with
    | mk dn ds =>
      unfold SettingsManager.merge_all
      cases hdom : SettingsManager.merge_domain shuffle now fresh_salt dn ds l with
      | error e =>
        have := merge_domain_no_perm shuffle now fresh_salt dn ds l
        rw [hdom] at this
        simpa using fun he => this (by rw [he])
      | ok l' => simpa using ih l'

/-- C4 counterexample: a load in which decompression succeeds but the
stored record count (read from the first four decrypted bytes) exceeds
the number of keys in the parsed JSON object raises `ValueError`
(settings_manager.py lines 58-60), not the wrong-master-password
`PermissionError`, and `__main__`'s handler does not catch it.  The
48-byte blob decrypts (identity AES) to 44 bytes whose first four bytes
encode a huge count, while the JSON object is empty. -/
theorem C4_counterexample :
    SettingsManager.load_settings (fun _ _ => List.replicate 32 0)
        (fun _ b => b) (fun _ => some []) (fun _ => some []) id [] 0
        (List.replicate 48 4) sample_kgk_state [] =
      .error LoadErr.valueError ∧
    ¬ SettingsManager.load_settings (fun _ _ => List.replicate 32 0)
        (fun _ b => b) (fun _ => some []) (fun _ => some []) id [] 0
        (List.replicate 48 4) sample_kgk_state [] =
      .error LoadErr.permissionError ∧
    main_load_exit_code
      (SettingsManager.load_settings (fun _ _ => List.replicate 32 0)
        (fun _ b => b) (fun _ => some []) (fun _ => some []) id [] 0
        (List.replicate 48 4) sample_kgk_state []) = none := by
  refine ⟨by decide, by decide, by decide⟩

/-- C4 (amended): in a load whose blob is at least 40 bytes, whose
settings crypter is available, and whose decryption succeeds, the
wrong-master-password `PermissionError` is raised exactly when
decompression of the decrypted records blob fails — and in that case
`__main__` catches it and exits with code 1; when instead decompression
and JSON parsing succeed but the stored record count is larger than the
parsed object, the error is a `ValueError`, which is not the
wrong-master-password kind and is not caught by `__main__`'s handler. -/
theorem C4_amended_load_errors (pbkdf2_sha256 : Bytes → Bytes → Bytes)
    (aesDecK : Bytes → Bytes → Bytes) (inflate : Bytes → Option Bytes)
    (parse_json : Bytes → Option (List (String × DataSet)))
    (shuffle : List Char → List Char) (fresh_salt : Bytes) (now : Int)
    (encrypted : Bytes) (st : KgkState) (settings : List Setting)
    (key48 : Bytes)
    (hkey : SettingsManager.get_settings_crypter_key pbkdf2_sha256 st =
      some key48)
    (hlen : ¬ encrypted.length < 40) (d : Bytes)
    (hdec : Crypter.decrypt (aesDecK key48) encrypted = some d) :
    (Packer.decompress inflate (d.drop 4) = none →
      SettingsManager.load_settings pbkdf2_sha256 aesDecK inflate parse_json
          shuffle fresh_salt now encrypted st settings =
        .error LoadErr.permissionError ∧
      main_load_exit_code
        (SettingsManager.load_settings pbkdf2_sha256 aesDecK inflate
          parse_json shuffle fresh_salt now encrypted st settings) =
        some 1) ∧
    (∀ dec saved, Packer.decompress inflate (d.drop 4) = some dec →
      parse_json dec = some saved →
      saved.length < Packer.unpack_be32 (d.take 4) →
      SettingsManager.load_settings pbkdf2_sha256 aesDecK inflate parse_json
          shuffle fresh_salt now encrypted st settings =
        .error LoadErr.valueError ∧
      ¬ (Except.error LoadErr.valueError :
          Except LoadErr (List Setting)) = .error LoadErr.permissionError ∧
      main_load_exit_code
        (SettingsManager.load_settings pbkdf2_sha256 aesDecK inflate
          parse_json shuffle fresh_salt now encrypted st settings) = none) ∧
    (SettingsManager.load_settings pbkdf2_sha256 aesDecK inflate parse_json
        shuffle fresh_salt now encrypted st settings =
      .error LoadErr.permissionError →
      Packer.decompress inflate (d.drop 4) = none) := by
  refine ⟨?_, ?_, ?_⟩
  · intro hinf
    unfold SettingsManager.load_settings
    rw [if_neg hlen, hkey]
    dsimp only
    rw [hdec]
    dsimp only
    rw [hinf]
    exact ⟨rfl, rfl⟩
  · intro dec saved hinf hparse hshort
    unfold SettingsManager.load_settings
    rw [if_neg hlen, hkey]
    dsimp only
    rw [hdec]
    dsimp only
    rw [hinf]
    dsimp only
    rw [hparse]
    dsimp only
    rw [if_pos hshort]
    refine ⟨rfl, by simp, rfl⟩
  · intro hperm
    unfold SettingsManager.load_settings at hperm
    rw [if_neg hlen, hkey] at hperm
    dsimp only at hperm
    rw [hdec] at hperm
    dsimp only at hperm
    cases hinf : Packer.decompress inflate (d.drop 4) with
    | none => rfl
    | some dec =>
      exfalso
      rw [hinf] at hperm
      dsimp only at hperm
      cases hparse : parse_json dec with
      | none =>
        rw [hparse] at hperm
        dsimp only at hperm
        exact LoadErr.noConfusion (Except.error.inj hperm)
      | some saved =>
        rw [hparse] at hperm
        dsimp only at hperm
        by_cases hshort : saved.length <
            Packer.unpack_be32 (d.take 4)
        · rw [if_pos hshort] at hperm
          exact LoadErr.noConfusion (Except.error.inj hperm)
        · rw [if_neg hshort] at hperm
          exact merge_all_no_perm shuffle now fresh_salt saved settings hperm

/-- Witness for C4 (amended): a concrete 48-byte blob under the identity
AES transform whose decompression fails is reported as the
wrong-master-password error and exit code 1. -/
theorem C4_amended_load_errors_witness :
    (SettingsManager.get_settings_crypter_key (fun _ _ => List.replicate 32 0)
        sample_kgk_state =
      some (List.replicate 32 0 ++ List.replicate 16 1) ∧
      ¬ (List.replicate 48 4 : Bytes).length < 40 ∧
      Crypter.decrypt
        ((fun (_ b : Bytes) => b) (List.replicate 32 0 ++ List.replicate 16 1))
        (List.replicate 48 4) = some (List.replicate 44 4)) ∧
    (SettingsManager.load_settings (fun _ _ => List.replicate 32 0)
        (fun _ b => b) (fun _ => none) (fun _ => some []) id [] 0
        (List.replicate 48 4) sample_kgk_state [] =
      .error LoadErr.permissionError ∧
      main_load_exit_code
        (SettingsManager.load_settings (fun _ _ => List.replicate 32 0)
          (fun _ b => b) (fun _ => none) (fun _ => some []) id [] 0
          (List.replicate 48 4) sample_kgk_state []) = some 1) :=
  ⟨⟨by decide, by decide, by decide⟩,
   (C4_amended_load_errors (fun _ _ => List.replicate 32 0) (fun _ b => b)
      (fun _ => none) (fun _ => some []) id [] 0 (List.replicate 48 4)
      sample_kgk_state [] (List.replicate 32 0 ++ List.replicate 16 1)
      (by decide) (by decide) (List.replicate 44 4) (by decide)).1 rfl⟩

/-- C3: the merge of `load_settings` crashes instead of merging.  For a
domain present both in memory and in the file, the merge reads
`data_set["mDate"]` (settings_manager.py line 69), but the dictionaries
written by `Setting.to_dict` carry the key `"modification_date"` and no
`"mDate"`, so the comparison raises `KeyError` rather than overwriting
the in-memory record when the incoming modification date is strictly
newer.  Evaluated at a one-record store and a file holding the same
domain with a newer dictionary. -/
theorem C3_merge_raises_keyerror :
    (Setting.to_dict (Setting.init "d1" [] 5 id)).modification_date =
      some (some 5) ∧
    (Setting.to_dict (Setting.init "d1" [] 5 id)).mDate = none ∧
    (Setting.init "d1" [] 0 id).modification_date = 0 ∧
    SettingsManager.merge_all id 0 []
      [("d1", Setting.to_dict (Setting.init "d1" [] 5 id))]
      [Setting.init "d1" [] 0 id] = .error LoadErr.keyError ∧
    SettingsManager.load_settings (fun _ _ => List.replicate 32 0)
      (fun _ b => b) (fun _ => some [])
      (fun _ => some [("d1", Setting.to_dict (Setting.init "d1" [] 5 id))])
      id [] 0
      (Crypter.add_pkcs7_padding ([0, 0, 0, 1] ++ List.replicate 40 9))
      sample_kgk_state [Setting.init "d1" [] 0 id] =
      .error LoadErr.keyError := by
  refine ⟨by decide, by decide, by decide, by decide, by decide⟩

theorem dict_insert_fresh (d : List (String × DataSet)) (k : String)
    (v : DataSet) (h : ∀ p ∈ d, p.1 ≠ k) :
    SettingsManager.dict_insert d k v = d ++ [(k, v)] := by
  unfold SettingsManager.dict_insert
  rw [if_neg]
  simp only [List.any_eq_true, decide_eq_true_eq, not_exists]
  intro p hpk
  exact h p hpk.1 hpk.2

theorem get_settings_as_dict_go :
    ∀ (settings : List Setting) (acc : List (String × DataSet)),
      (∀ s ∈ settings, ∀ p ∈ acc, p.1 ≠ s.domain) →
      (settings.map Setting.domain).Nodup →
      settings.foldl
        (fun d s => SettingsManager.dict_insert d s.domain s.to_dict) acc =
        acc ++ settings.map (fun s => (s.domain, s.to_dict)) := by
  intro settings
  induction settings with
  | nil => intro acc _ _; simp
  | cons s rest ih =>
    intro acc hacc hnd
    simp only [List.foldl_cons]
    rw [dict_insert_fresh _ _ _
      (fun p hp => hacc s (List.mem_cons_self s rest) p hp)]
    simp only [List.map_cons, List.nodup_cons] at hnd
    rw [ih (acc ++ [(s.domain, s.to_dict)]) ?_ hnd.2]
    · simp
    · intro s' hs' p hp
      rcases List.mem_append.mp hp with hp | hp
      · exact hacc s' (List.mem_cons_of_mem s hs') p hp
      · have hps : p = (s.domain, s.to_dict) := by simpa using hp
        subst hps
        show ¬ s.domain = s'.domain
        intro hcontra
        exact hnd.1 (by rw [hcontra]; exact List.mem_map_of_mem _ hs')

theorem get_settings_as_dict_eq (settings : List Setting)
    (hnd : (settings.map Setting.domain).Nodup) :
    SettingsManager.get_settings_as_dict settings =
      settings.map (fun s => (s.domain, s.to_dict)) := by
  unfold SettingsManager.get_settings_as_dict
  rw [get_settings_as_dict_go settings [] (by simp) hnd]
  simp

theorem merge_all_fresh (shuffle : List Char → List Char) (now : Int)
    (fresh_salt : Bytes) :
    ∀ (pairs : List (String × DataSet)) (settings : List Setting),
      (∀ p ∈ pairs, ∀ st ∈ settings, st.domain ≠ p.1) →
      (pairs.map Prod.fst).Nodup →
      SettingsManager.merge_all shuffle now fresh_salt pairs settings =
        .ok (settings ++ pairs.map (fun p =>
          Setting.load_from_dict shuffle now p.2
            (Setting.init p.1 fresh_salt now shuffle))) := by
  intro pairs
  induction pairs with
  | nil => intro settings _ _; simp [SettingsManager.merge_all]
  | cons p rest ih =>
    intro settings hdisj hnd
    cases p with
    | mk dn ds =>
      unfold SettingsManager.merge_all SettingsManager.merge_domain
      rw [merge_scan_not_found shuffle now dn ds settings
        (fun st hst => hdisj (dn, ds) (List.mem_cons_self _ _) st hst)]
      dsimp only
      rw [if_neg Bool.false_ne_true]
      dsimp only
      simp only [List.map_cons, List.nodup_cons] at hnd
      rw [ih (settings ++
          [Setting.load_from_dict shuffle now ds
            (Setting.init dn fresh_salt now shuffle)]) ?_ hnd.2]
      · simp
      · intro q hq st hst
        rcases List.mem_append.mp hst with hst | hst
        · exact hdisj q (List.mem_cons_of_mem _ hq) st hst
        · have hsteq : st = Setting.load_from_dict shuffle now ds
              (Setting.init dn fresh_salt now shuffle) := by simpa using hst
          rw [hsteq, load_from_dict_domain, init_domain]
          intro hcontra
          exact hnd.1 (by rw [hcontra]; exact List.mem_map_of_mem _ hq)

/-- C1: storing the settings and reloading them with the same key
generation key manager (whose inner salt and inner IV were refreshed by
the save) into an empty in-memory list reconstructs the same records by
`to_dict` equality, whenever the records' domains are distinct, every
record keeps the code's invariants (non-empty extra character set and
modification date at least the creation date, both maintained by every
setter), the record count fits 32 bits, the encrypted blob is at least
40 bytes, and the external AES / DEFLATE / JSON primitives invert each
other at the stored values (timestamps are second-precision integers in
this embedding, matching the serialization). -/
theorem C1_store_load_roundtrip
    (pbkdf2_sha256 : Bytes → Bytes → Bytes)
    (aesEncK aesDecK : Bytes → Bytes → Bytes)
    (deflate : Bytes → Bytes) (inflate : Bytes → Option Bytes)
    (print_json : List (String × DataSet) → Bytes)
    (parse_json : Bytes → Option (List (String × DataSet)))
    (shuffle : List Char → List Char)
    (fresh_salt2 fresh_iv2 fresh_salt : Bytes)
    (now : Int) (settings : List Setting) (st : KgkState)
    (hnodup : (settings.map Setting.domain).Nodup)
    (hinv : ∀ s ∈ settings, s.extra_characters ≠ [] ∧
      s.creation_date ≤ s.modification_date)
    (hcount : settings.length < 2 ^ 32)
    (hdec : aesDecK (pbkdf2_sha256 st.key_generation_key fresh_salt2 ++ fresh_iv2)
        (aesEncK (pbkdf2_sha256 st.key_generation_key fresh_salt2 ++ fresh_iv2)
          (Crypter.add_pkcs7_padding
            (Packer.pack_be32 (SettingsManager.get_settings_as_dict settings).length ++
          Packer.compress deflate (print_json (SettingsManager.get_settings_as_dict settings))))) =
      Crypter.add_pkcs7_padding
        (Packer.pack_be32 (SettingsManager.get_settings_as_dict settings).length ++
          Packer.compress deflate (print_json (SettingsManager.get_settings_as_dict settings))))
    (hinf : inflate (deflate (print_json (SettingsManager.get_settings_as_dict settings))) = some (print_json (SettingsManager.get_settings_as_dict settings)))
    (hparse : parse_json (print_json (SettingsManager.get_settings_as_dict settings)) = some (SettingsManager.get_settings_as_dict settings))
    (hblob : ¬ (Crypter.encrypt (aesEncK (pbkdf2_sha256 st.key_generation_key fresh_salt2 ++ fresh_iv2))
        (Packer.pack_be32 (SettingsManager.get_settings_as_dict settings).length ++
          Packer.compress deflate (print_json (SettingsManager.get_settings_as_dict settings)))).length < 40) :
    SettingsManager.store_settings pbkdf2_sha256 aesEncK deflate print_json
        fresh_salt2 fresh_iv2 settings st =
      some (Crypter.encrypt (aesEncK (pbkdf2_sha256 st.key_generation_key fresh_salt2 ++ fresh_iv2))
        (Packer.pack_be32 (SettingsManager.get_settings_as_dict settings).length ++
          Packer.compress deflate (print_json (SettingsManager.get_settings_as_dict settings))), (st.new_salt2 fresh_salt2).new_initialization_vector2 fresh_iv2) ∧
    SettingsManager.load_settings pbkdf2_sha256 aesDecK inflate parse_json
        shuffle fresh_salt now
        (Crypter.encrypt (aesEncK (pbkdf2_sha256 st.key_generation_key fresh_salt2 ++ fresh_iv2))
        (Packer.pack_be32 (SettingsManager.get_settings_as_dict settings).length ++
          Packer.compress deflate (print_json (SettingsManager.get_settings_as_dict settings))))
        ((st.new_salt2 fresh_salt2).new_initialization_vector2 fresh_iv2) [] =
      .ok (settings.map (fun s =>
        Setting.load_from_dict shuffle now s.to_dict
          (Setting.init s.domain fresh_salt now shuffle))) ∧
    (settings.map (fun s =>
        Setting.load_from_dict shuffle now s.to_dict
          (Setting.init s.domain fresh_salt now shuffle))).map Setting.to_dict = settings.map Setting.to_dict := by
  have hkey : SettingsManager.get_settings_crypter_key pbkdf2_sha256
      ((st.new_salt2 fresh_salt2).new_initialization_vector2 fresh_iv2) = some (pbkdf2_sha256 st.key_generation_key fresh_salt2 ++ fresh_iv2) := rfl
  refine ⟨rfl, ?_, ?_⟩
  · unfold SettingsManager.load_settings
    rw [if_neg hblob, hkey]
    dsimp only
    have hdecrypt : Crypter.decrypt (aesDecK (pbkdf2_sha256 st.key_generation_key fresh_salt2 ++ fresh_iv2)) (Crypter.encrypt (aesEncK (pbkdf2_sha256 st.key_generation_key fresh_salt2 ++ fresh_iv2))
        (Packer.pack_be32 (SettingsManager.get_settings_as_dict settings).length ++
          Packer.compress deflate (print_json (SettingsManager.get_settings_as_dict settings)))) =
        some (Packer.pack_be32 (SettingsManager.get_settings_as_dict settings).length ++
          Packer.compress deflate (print_json (SettingsManager.get_settings_as_dict settings))) := by
      unfold Crypter.decrypt Crypter.encrypt
      rw [hdec]
      exact Crypter.remove_add_pkcs7 _
    rw [hdecrypt]
    dsimp only
    rw [show (Packer.pack_be32 (SettingsManager.get_settings_as_dict settings).length ++
          Packer.compress deflate (print_json (SettingsManager.get_settings_as_dict settings))).drop 4 =
        Packer.compress deflate (print_json (SettingsManager.get_settings_as_dict settings)) from
      List.drop_left' (Packer.pack_be32_length _)]
    rw [Packer.decompress_compress deflate inflate _ hinf]
    dsimp only
    rw [hparse]
    dsimp only
    have hlen32 : (SettingsManager.get_settings_as_dict settings).length < 2 ^ 32 := by
      rw [get_settings_as_dict_eq settings hnodup, List.length_map]
      exact hcount
    rw [show (Packer.pack_be32 (SettingsManager.get_settings_as_dict settings).length ++
          Packer.compress deflate (print_json (SettingsManager.get_settings_as_dict settings))).take 4 =
        Packer.pack_be32 (SettingsManager.get_settings_as_dict settings).length from
      List.take_left' (Packer.pack_be32_length _)]
    rw [Packer.unpack_pack_be32 _ hlen32]
    rw [if_neg (lt_irrefl _)]
    rw [get_settings_as_dict_eq settings hnodup]
    rw [merge_all_fresh shuffle now fresh_salt _ []
      (fun p _ st' hst' => absurd hst' (List.not_mem_nil st'))
      (by simpa [List.map_map, Function.comp] using hnodup)]
    rw [List.map_map]
    rfl
  · rw [List.map_map]
    refine List.map_congr_left ?_
    intro s hs
    exact to_dict_load_roundtrip shuffle shuffle fresh_salt now now s
      (hinv s hs).1 (hinv s hs).2

/-- Witness for C1 at an empty record list, the identity AES transform,
and a DEFLATE/JSON pair that invert each other on the stored bytes. -/
theorem C1_store_load_roundtrip_witness :
    (¬ (Crypter.encrypt ((fun (_ x : Bytes) => x) ((fun (_ _ : Bytes) => List.replicate 32 0) sample_kgk_state.key_generation_key (List.replicate 32 7) ++ (List.replicate 16 8)))
      (Packer.pack_be32 (SettingsManager.get_settings_as_dict []).length ++
        Packer.compress (fun x => List.replicate 36 0 ++ x) ((fun (_ : List (String × DataSet)) => ([] : Bytes)) (SettingsManager.get_settings_as_dict [])))).length < 40) ∧
    SettingsManager.store_settings (fun (_ _ : Bytes) => List.replicate 32 0) (fun (_ x : Bytes) => x) (fun x => List.replicate 36 0 ++ x) (fun (_ : List (String × DataSet)) => ([] : Bytes))
        (List.replicate 32 7) (List.replicate 16 8) [] sample_kgk_state =
      some (Crypter.encrypt ((fun (_ x : Bytes) => x) ((fun (_ _ : Bytes) => List.replicate 32 0) sample_kgk_state.key_generation_key (List.replicate 32 7) ++ (List.replicate 16 8)))
      (Packer.pack_be32 (SettingsManager.get_settings_as_dict []).length ++
        Packer.compress (fun x => List.replicate 36 0 ++ x) ((fun (_ : List (String × DataSet)) => ([] : Bytes)) (SettingsManager.get_settings_as_dict []))), (sample_kgk_state.new_salt2 (List.replicate 32 7)).new_initialization_vector2 (List.replicate 16 8)) ∧
    SettingsManager.load_settings (fun (_ _ : Bytes) => List.replicate 32 0) (fun (_ x : Bytes) => x) (fun x => some (x.drop 36)) (fun (_ : Bytes) => some ([] : List (String × DataSet)))
        id [] 0
        (Crypter.encrypt ((fun (_ x : Bytes) => x) ((fun (_ _ : Bytes) => List.replicate 32 0) sample_kgk_state.key_generation_key (List.replicate 32 7) ++ (List.replicate 16 8)))
      (Packer.pack_be32 (SettingsManager.get_settings_as_dict []).length ++
        Packer.compress (fun x => List.replicate 36 0 ++ x) ((fun (_ : List (String × DataSet)) => ([] : Bytes)) (SettingsManager.get_settings_as_dict []))))
        ((sample_kgk_state.new_salt2 (List.replicate 32 7)).new_initialization_vector2 (List.replicate 16 8)) [] =
      .ok (([] : List Setting).map (fun s =>
        Setting.load_from_dict id 0 s.to_dict
          (Setting.init s.domain [] 0 id))) :=
  ⟨by decide,
   (C1_store_load_roundtrip (fun (_ _ : Bytes) => List.replicate 32 0) (fun (_ x : Bytes) => x) (fun (_ x : Bytes) => x) (fun x => List.replicate 36 0 ++ x) (fun x => some (x.drop 36)) (fun (_ : List (String × DataSet)) => ([] : Bytes)) (fun (_ : Bytes) => some ([] : List (String × DataSet))) id
      (List.replicate 32 7) (List.replicate 16 8) [] 0 [] sample_kgk_state (by simp)
      (fun s hs => absurd hs (List.not_mem_nil s)) (by decide) rfl (by decide)
      rfl (by decide)).1,
   (C1_store_load_roundtrip (fun (_ _ : Bytes) => List.replicate 32 0) (fun (_ x : Bytes) => x) (fun (_ x : Bytes) => x) (fun x => List.replicate 36 0 ++ x) (fun x => some (x.drop 36)) (fun (_ : List (String × DataSet)) => ([] : Bytes)) (fun (_ : Bytes) => some ([] : List (String × DataSet))) id
      (List.replicate 32 7) (List.replicate 16 8) [] 0 [] sample_kgk_state (by simp)
      (fun s hs => absurd hs (List.not_mem_nil s)) (by decide) rfl (by decide)
      rfl (by decide)).2.1⟩
